import Mathlib

/-!
# Red-envelope client: shallow embedding of `redenvelope/service.go` and `main.go`

The Go service talks to an Ethereum node and to a deployed contract.  Every
operation is a short straight-line program over node queries, so each one is
embedded as a function from an explicit environment (the answers of the node,
the clock) to a `Run`: the list of requests it issued, in order, and what it
returned to its caller.

Conventions

* `*big.Int` values are `Int` (arbitrary precision, never nil).
* Fixed-width unsigned integers are `Fin (2 ^ w)`; Go conversions between
  widths are the explicit functions `toInt64` and `toUint64`.
* A Go `error` is its message, a `String`; `fmt.Errorf("p: %v", err)` is
  `"p: " ++ err`.
* A runtime panic (index out of range, failed type assertion, reflection on a
  value of the wrong kind) is the separate outcome `Outcome.panic`.
-/

namespace RedEnvelope

/-! ## Machine types -/

/-- Go `uint8`. -/
abbrev Uint8 := Fin (2 ^ 8)

/-- Go `uint32`. -/
abbrev Uint32 := Fin (2 ^ 32)

/-- Go `uint64`. -/
abbrev Uint64 := Fin (2 ^ 64)

/-- The type `common.Address`, a `[20]byte`, read as a big-endian number. -/
abbrev Address := Fin (2 ^ 160)

/-- The type `[32]byte`, read as a big-endian number. -/
abbrev Bytes32 := Fin (2 ^ 256)

/-- Go conversion `int64(x)` of an unsigned machine integer: the low 64 bits
read in two's complement. -/
def toInt64 (n : Nat) : Int :=
  if n % 2 ^ 64 < 2 ^ 63 then ((n % 2 ^ 64 : Nat) : Int)
  else ((n % 2 ^ 64 : Nat) : Int) - 2 ^ 64

/-- Go conversion `uint64(x)` of a signed integer: reduction modulo `2 ^ 64`. -/
def toUint64 (z : Int) : Uint64 :=
  ⟨(z % 2 ^ 64).toNat, by
    have h1 : (0 : Int) ≤ z % 2 ^ 64 := Int.emod_nonneg _ (by norm_num)
    have h2 : z % 2 ^ 64 < 2 ^ 64 := Int.emod_lt_of_pos _ (by norm_num)
    omega⟩

/-! ## Envelope kinds -/

/-- Modelled from the spec: the constant `DIRECT_FIXED` is declared in a file of
the package that is not among the sources; the spec gives `DIRECT_FIXED=0`. -/
def DIRECT_FIXED : Uint8 := 0

/-- Modelled from the spec: the constant `GROUP_FIXED` is declared in a file of
the package that is not among the sources; the spec gives `GROUP_FIXED=1`. -/
def GROUP_FIXED : Uint8 := 1

/-- Modelled from the spec: the constant `GROUP_RANDOM` is declared in a file of
the package that is not among the sources; the spec gives `GROUP_RANDOM=2`. -/
def GROUP_RANDOM : Uint8 := 2

/-! ## Clock -/

/-- Go `time.Duration`: a count of nanoseconds (an `int64` in Go). -/
abbrev Duration := Int

/-- Go `time.Time` as a wall-clock reading: whole seconds since the Unix epoch
and the nanoseconds within that second (`0 ≤ nsec < 10^9` for every value the
runtime produces). -/
structure Time where
  sec : Int
  nsec : Int
deriving DecidableEq, Repr

/-- Well-formed clock readings: the nanosecond field is normalised. -/
def Time.Valid (t : Time) : Prop := 0 ≤ t.nsec ∧ t.nsec < 1000000000

instance (t : Time) : Decidable t.Valid := by
  unfold Time.Valid
  infer_instance

/-- Go `Time.Add`: `dsec := d / 1e9` and `d % 1e9` use Go's truncated division,
then the nanosecond field is renormalised into `[0, 1e9)` with a carry or a
borrow of one second. -/
def Time.Add (t : Time) (d : Duration) : Time :=
  let dsec := Int.tdiv d 1000000000
  let nsec := t.nsec + Int.tmod d 1000000000
  if nsec ≥ 1000000000 then ⟨t.sec + (dsec + 1), nsec - 1000000000⟩
  else if nsec < 0 then ⟨t.sec + (dsec - 1), nsec + 1000000000⟩
  else ⟨t.sec + dsec, nsec⟩

/-- Go `Time.Unix`: the whole seconds since the epoch. -/
def Time.Unix (t : Time) : Int := t.sec

/-! ## Values crossing the contract binding -/

/-- A dynamically typed Go value (`interface{}`) as the contract binding takes
and returns them.  `struct` is the anonymous struct the ABI decoder builds for
a returned tuple: its fields in declaration order, each with its name. -/
inductive GoValue where
  | address (a : Address)
  | uint8 (n : Uint8)
  | uint32 (n : Uint32)
  | uint64 (n : Uint64)
  | bigInt (z : Int)
  | bytes32 (b : Bytes32)
  | bool (b : Bool)
  | struct (fields : List (String × GoValue))

/-- The type `bind.TransactOpts`, restricted to the fields the service writes. -/
structure TransactOpts where
  Nonce : Int
  Value : Int
  GasPrice : Int
  GasLimit : Uint64

/-- The handle `*types.Transaction` returned by a submission. -/
structure Transaction where
  Hash : Bytes32
deriving DecidableEq, Repr

/-- One `boundContract.Transact(auth, method, args...)`. -/
structure TransactCall where
  contract : Address
  opts : TransactOpts
  method : String
  args : List GoValue

/-- One `boundContract.Call(&bind.CallOpts{}, &result, method, args...)`. -/
structure ReadCall where
  contract : Address
  method : String
  args : List GoValue

/-- A request the service issues. -/
inductive Event where
  | pendingNonceAt (account : Address)
  | suggestGasPrice
  | transact (c : TransactCall)
  | call (c : ReadCall)
  | transactionReceipt (txHash : Bytes32)

/-- The world the service runs against: the clock and the answer the node (or
the binding library) gives to each request. -/
structure Env where
  Now : Time
  PendingNonceAt : Address → Except String Uint64
  SuggestGasPrice : Except String Int
  NewKeyedTransactorWithChainID : Nat → Int → Except String Unit
  Transact : TransactCall → Except String Transaction
  Call : ReadCall → Except String (List GoValue)

/-- How a Go function ends: a value, an error, or a runtime panic. -/
inductive Outcome (α : Type) where
  | ok (value : α)
  | error (msg : String)
  | panic

/-- A completed execution: the requests issued, in order, and the outcome. -/
structure Run (α : Type) where
  trace : List Event
  result : Outcome α

/-- The transactions an execution submitted. -/
def submitted : List Event → List TransactCall
  | [] => []
  | Event.transact c :: es => c :: submitted es
  | _ :: es => submitted es

/-- The read-only contract calls an execution issued. -/
def readCalls : List Event → List ReadCall
  | [] => []
  | Event.call c :: es => c :: readCalls es
  | _ :: es => readCalls es

/-! ## The service -/

/-- The type `RedEnvelopeService`: the fields the operations read.  The client
connection is the `Env`; the parsed ABI is fixed. -/
structure RedEnvelopeService where
  ContractAddress : Address
  PrivateKey : Nat
  Address : Address
  ChainID : Int

/-- The type `Envelope`. -/
structure Envelope where
  Creator : Address
  Token : Address
  Kind : Uint8
  AmountPerClaim : Int
  RemainingAmount : Int
  TotalClaims : Uint32
  RemainingClaims : Uint32
  ClaimIndex : Uint32
  Expiry : Uint64
  RoomIdHash : Bytes32
  Recipient : Address
deriving DecidableEq

/-- `CreateEnvelope`, service.go line 104:
`expiry := uint64(time.Now().Add(expiryDuration).Unix())`. -/
def CreateEnvelope.expiry (now : Time) (expiryDuration : Duration) : Uint64 :=
  toUint64 (now.Add expiryDuration).Unix

/-- `CreateEnvelope`, service.go lines 125-132: the local `grossPot`. -/
def CreateEnvelope.grossPot (kind : Uint8) (totalClaims : Uint32) (amount : Int) : Int :=
  if kind = GROUP_FIXED then
    amount * toInt64 totalClaims.val
  else
    amount

/-- `CreateEnvelope`, service.go lines 134-138: the value put in `auth.Value`. -/
def CreateEnvelope.value (kind : Uint8) (token : Address) (totalClaims : Uint32)
    (amount : Int) : Int :=
  if token = 0 then CreateEnvelope.grossPot kind totalClaims amount else 0

/-- `RedEnvelopeService.CreateEnvelope`. -/
def RedEnvelopeService.CreateEnvelope (s : RedEnvelopeService) (env : Env)
    (kind : Uint8) (token : RedEnvelope.Address) (totalClaims : Uint32) (amount : Int)
    (expiryDuration : Duration) (roomIdHash : Bytes32) (recipient : RedEnvelope.Address) :
    Run Transaction :=
  let expiry := CreateEnvelope.expiry env.Now expiryDuration
  match env.PendingNonceAt s.Address with
  | .error err => ⟨[.pendingNonceAt s.Address], .error ("failed to get nonce: " ++ err)⟩
  | .ok nonce =>
  match env.SuggestGasPrice with
  | .error err =>
    ⟨[.pendingNonceAt s.Address, .suggestGasPrice],
      .error ("failed to get gas price: " ++ err)⟩
  | .ok gasPrice =>
  match env.NewKeyedTransactorWithChainID s.PrivateKey s.ChainID with
  | .error err =>
    ⟨[.pendingNonceAt s.Address, .suggestGasPrice],
      .error ("failed to create transactor: " ++ err)⟩
  | .ok _ =>
  let auth : TransactOpts :=
    ⟨toInt64 nonce.val, CreateEnvelope.value kind token totalClaims amount, gasPrice, 500000⟩
  let c : TransactCall :=
    ⟨s.ContractAddress, auth, "createEnvelope",
      [.uint8 kind, .address token, .uint32 totalClaims, .bigInt amount, .uint64 expiry,
        .bytes32 roomIdHash, .address recipient]⟩
  match env.Transact c with
  | .error err =>
    ⟨[.pendingNonceAt s.Address, .suggestGasPrice, .transact c],
      .error ("failed to create envelope: " ++ err)⟩
  | .ok tx => ⟨[.pendingNonceAt s.Address, .suggestGasPrice, .transact c], .ok tx⟩

/-- `RedEnvelopeService.ClaimEnvelope`. -/
def RedEnvelopeService.ClaimEnvelope (s : RedEnvelopeService) (env : Env)
    (envelopeId : Int) : Run Transaction :=
  match env.PendingNonceAt s.Address with
  | .error err => ⟨[.pendingNonceAt s.Address], .error ("failed to get nonce: " ++ err)⟩
  | .ok nonce =>
  match env.SuggestGasPrice with
  | .error err =>
    ⟨[.pendingNonceAt s.Address, .suggestGasPrice],
      .error ("failed to get gas price: " ++ err)⟩
  | .ok gasPrice =>
  match env.NewKeyedTransactorWithChainID s.PrivateKey s.ChainID with
  | .error err =>
    ⟨[.pendingNonceAt s.Address, .suggestGasPrice],
      .error ("failed to create transactor: " ++ err)⟩
  | .ok _ =>
  let auth : TransactOpts := ⟨toInt64 nonce.val, 0, gasPrice, 300000⟩
  let c : TransactCall := ⟨s.ContractAddress, auth, "claimEnvelope", [.bigInt envelopeId]⟩
  match env.Transact c with
  | .error err =>
    ⟨[.pendingNonceAt s.Address, .suggestGasPrice, .transact c],
      .error ("failed to claim envelope: " ++ err)⟩
  | .ok tx => ⟨[.pendingNonceAt s.Address, .suggestGasPrice, .transact c], .ok tx⟩

/-- `RedEnvelopeService.RefundEnvelope`. -/
def RedEnvelopeService.RefundEnvelope (s : RedEnvelopeService) (env : Env)
    (envelopeId : Int) : Run Transaction :=
  match env.PendingNonceAt s.Address with
  | .error err => ⟨[.pendingNonceAt s.Address], .error ("failed to get nonce: " ++ err)⟩
  | .ok nonce =>
  match env.SuggestGasPrice with
  | .error err =>
    ⟨[.pendingNonceAt s.Address, .suggestGasPrice],
      .error ("failed to get gas price: " ++ err)⟩
  | .ok gasPrice =>
  match env.NewKeyedTransactorWithChainID s.PrivateKey s.ChainID with
  | .error err =>
    ⟨[.pendingNonceAt s.Address, .suggestGasPrice],
      .error ("failed to create transactor: " ++ err)⟩
  | .ok _ =>
  let auth : TransactOpts := ⟨toInt64 nonce.val, 0, gasPrice, 300000⟩
  let c : TransactCall := ⟨s.ContractAddress, auth, "refundEnvelope", [.bigInt envelopeId]⟩
  match env.Transact c with
  | .error err =>
    ⟨[.pendingNonceAt s.Address, .suggestGasPrice, .transact c],
      .error ("failed to refund envelope: " ++ err)⟩
  | .ok tx => ⟨[.pendingNonceAt s.Address, .suggestGasPrice, .transact c], .ok tx⟩

/-- The expression `reflect.ValueOf(v).Field(i).Interface()`: the value of the
`i`-th field of a struct, whatever its name.  `none` is the panic that
reflection raises when `v` is not a struct or has no field `i`. -/
def GoValue.Field : GoValue → Nat → Option GoValue
  | .struct fields, i => (fields[i]?).map Prod.snd
  | _, _ => none

/-- Type assertion `x.(common.Address)`; `none` is the panic on another type. -/
def GoValue.assertAddress : GoValue → Option Address
  | .address a => some a
  | _ => none

/-- Type assertion `x.(uint8)`; `none` is the panic on another type. -/
def GoValue.assertUint8 : GoValue → Option Uint8
  | .uint8 n => some n
  | _ => none

/-- Type assertion `x.(uint32)`; `none` is the panic on another type. -/
def GoValue.assertUint32 : GoValue → Option Uint32
  | .uint32 n => some n
  | _ => none

/-- Type assertion `x.(uint64)`; `none` is the panic on another type. -/
def GoValue.assertUint64 : GoValue → Option Uint64
  | .uint64 n => some n
  | _ => none

/-- Type assertion `x.(*big.Int)`; `none` is the panic on another type. -/
def GoValue.assertBigInt : GoValue → Option Int
  | .bigInt z => some z
  | _ => none

/-- Type assertion `x.([32]byte)`; `none` is the panic on another type. -/
def GoValue.assertBytes32 : GoValue → Option Bytes32
  | .bytes32 b => some b
  | _ => none

/-- `GetEnvelope`, service.go lines 192-209: `result[0]`, then the eleven
reflective field reads with their type assertions, in source order.  `none`
is a panic at any of these steps. -/
def GetEnvelope.decode (result : List GoValue) : Option Envelope :=
  match result[0]? with
  | none => none
  | some envelopeData =>
  match (envelopeData.Field 0).bind GoValue.assertAddress with
  | none => none
  | some creator =>
  match (envelopeData.Field 1).bind GoValue.assertAddress with
  | none => none
  | some token =>
  match (envelopeData.Field 2).bind GoValue.assertUint8 with
  | none => none
  | some kind =>
  match (envelopeData.Field 3).bind GoValue.assertBigInt with
  | none => none
  | some amountPerClaim =>
  match (envelopeData.Field 4).bind GoValue.assertBigInt with
  | none => none
  | some remainingAmount =>
  match (envelopeData.Field 5).bind GoValue.assertUint32 with
  | none => none
  | some totalClaims =>
  match (envelopeData.Field 6).bind GoValue.assertUint32 with
  | none => none
  | some remainingClaims =>
  match (envelopeData.Field 7).bind GoValue.assertUint32 with
  | none => none
  | some claimIndex =>
  match (envelopeData.Field 8).bind GoValue.assertUint64 with
  | none => none
  | some expiry =>
  match (envelopeData.Field 9).bind GoValue.assertBytes32 with
  | none => none
  | some roomIdHash =>
  match (envelopeData.Field 10).bind GoValue.assertAddress with
  | none => none
  | some recipient =>
  some ⟨creator, token, kind, amountPerClaim, remainingAmount, totalClaims,
    remainingClaims, claimIndex, expiry, roomIdHash, recipient⟩

/-- `RedEnvelopeService.GetEnvelope`. -/
def RedEnvelopeService.GetEnvelope (s : RedEnvelopeService) (env : Env)
    (envelopeId : Int) : Run Envelope :=
  let c : ReadCall := ⟨s.ContractAddress, "getEnvelope", [.bigInt envelopeId]⟩
  match env.Call c with
  | .error err => ⟨[.call c], .error ("failed to get envelope: " ++ err)⟩
  | .ok result =>
    match GetEnvelope.decode result with
    | none => ⟨[.call c], .panic⟩
    | some envelope => ⟨[.call c], .ok envelope⟩

/-- Type assertion `x.(bool)`; `none` is the panic on another type. -/
def GoValue.assertBool : GoValue → Option Bool
  | .bool b => some b
  | _ => none

/-- `RedEnvelopeService.HasClaimed`: one read call, then `result[0].(bool)`. -/
def RedEnvelopeService.HasClaimed (s : RedEnvelopeService) (env : Env)
    (envelopeId : Int) (user : RedEnvelope.Address) : Run Bool :=
  let c : ReadCall :=
    ⟨s.ContractAddress, "hasUserClaimed", [.bigInt envelopeId, .address user]⟩
  match env.Call c with
  | .error err => ⟨[.call c], .error ("failed to check claim status: " ++ err)⟩
  | .ok result =>
    match (result[0]?).bind GoValue.assertBool with
    | none => ⟨[.call c], .panic⟩
    | some claimed => ⟨[.call c], .ok claimed⟩

/-- `RedEnvelopeService.GetNextEnvelopeId`: one read call, then
`result[0].(*big.Int)`. -/
def RedEnvelopeService.GetNextEnvelopeId (s : RedEnvelopeService) (env : Env) : Run Int :=
  let c : ReadCall := ⟨s.ContractAddress, "nextEnvelopeId", []⟩
  match env.Call c with
  | .error err => ⟨[.call c], .error ("failed to get next envelope ID: " ++ err)⟩
  | .ok result =>
    match (result[0]?).bind GoValue.assertBigInt with
    | none => ⟨[.call c], .panic⟩
    | some nextId => ⟨[.call c], .ok nextId⟩

/-! ## Construction of the service -/

/-- What a `crypto.PublicKey` (an interface value) can hold: the
`*ecdsa.PublicKey` belonging to a private key, or a key of another scheme. -/
inductive PublicKey where
  | ecdsa (ofPrivate : Nat)
  | other
deriving DecidableEq

/-- Go `(*ecdsa.PrivateKey).Public()`, which returns `&priv.PublicKey`. -/
def PrivateKey.Public (privateKey : Nat) : PublicKey := .ecdsa privateKey

/-- The library calls `NewRedEnvelopeService` makes: `ethclient.Dial`,
`crypto.HexToECDSA`, `crypto.PubkeyToAddress`, `client.ChainID` (asked of the
node dialled at the given URL), `abi.JSON` on the package constant
`RedEnvelopeABI` (declared outside the sources, so its parse result is a
parameter) and `common.HexToAddress`. -/
structure SetupEnv where
  Dial : String → Except String Unit
  HexToECDSA : String → Except String Nat
  PubkeyToAddress : Nat → Address
  ChainID : String → Except String Int
  ParseABI : Except String Unit
  HexToAddress : String → Address

/-- `NewRedEnvelopeService`, service.go lines 45-81. -/
def NewRedEnvelopeService (env : SetupEnv) (rpcURL contractAddress privateKeyHex : String) :
    Outcome RedEnvelopeService :=
  match env.Dial rpcURL with
  | .error err => .error ("failed to connect to ethereum node: " ++ err)
  | .ok _ =>
  match env.HexToECDSA privateKeyHex with
  | .error err => .error ("failed to load private key: " ++ err)
  | .ok privateKey =>
  match PrivateKey.Public privateKey with
  | .other => .error "failed to cast public key to ECDSA"
  | .ecdsa publicKeyECDSA =>
  let address := env.PubkeyToAddress publicKeyECDSA
  match env.ChainID rpcURL with
  | .error err => .error ("failed to get chain ID: " ++ err)
  | .ok chainID =>
  match env.ParseABI with
  | .error err => .error ("failed to parse ABI: " ++ err)
  | .ok _ => .ok ⟨env.HexToAddress contractAddress, privateKey, address, chainID⟩

/-- How `ethclient.Dial` sets up the client for a URL it accepts: over `http` and
`https` it only builds the client and the first request opens the connection;
the other transports (websocket, IPC) connect while dialling. -/
inductive Transport where
  | http
  | connecting
deriving DecidableEq, Repr

/-- The network and the libraries as `NewRedEnvelopeService` meets them:
`transport` is how `ethclient.Dial` reads the URL (or why it refuses it),
`nodeUp` tells whether a node answers at the URL, `refusal` is the message of
an attempt to reach a node that does not answer, `chainID` is the answer of a
node that is up to the chain-ID query; the other fields are the library calls
of `SetupEnv` that do not touch the network. -/
structure Surroundings where
  transport : String → Except String Transport
  nodeUp : String → Bool
  refusal : String → String
  chainID : String → Except String Int
  HexToECDSA : String → Except String Nat
  PubkeyToAddress : Nat → Address
  ParseABI : Except String Unit
  HexToAddress : String → Address

/-- The library calls in given surroundings: dialling reaches for the node only
over a connecting transport; the chain-ID query always does. -/
def Surroundings.setup (w : Surroundings) : SetupEnv :=
  ⟨fun rpcURL =>
      match w.transport rpcURL with
      | .error err => .error err
      | .ok .http => .ok ()
      | .ok .connecting => if w.nodeUp rpcURL then .ok () else .error (w.refusal rpcURL),
    w.HexToECDSA, w.PubkeyToAddress,
    fun rpcURL => if w.nodeUp rpcURL then w.chainID rpcURL else .error (w.refusal rpcURL),
    w.ParseABI, w.HexToAddress⟩

/-! ## Confirmation polling (`main.go`, `waitForTransactionReceipt`) -/

/-- The type `*types.Receipt`: the status field the demo reads. -/
structure Receipt where
  Status : Uint64
deriving DecidableEq, Repr

/-- The loop `for i := 0; i < 30; i++` of `waitForTransactionReceipt`, entered
with counter `i` and `remaining = 30 - i` iterations left.  `receiptAt i` is
the node's answer to the query made in iteration `i`. -/
def waitForTransactionReceipt.loop (receiptAt : Nat → Except String Receipt)
    (txHash : Bytes32) : Nat → Nat → Run Receipt
  | 0, _ => ⟨[], .error "transaction not mined after 30 attempts"⟩
  | remaining + 1, i =>
    match receiptAt i with
    | .ok receipt => ⟨[.transactionReceipt txHash], .ok receipt⟩
    | .error _ =>
      let rest := waitForTransactionReceipt.loop receiptAt txHash remaining (i + 1)
      ⟨.transactionReceipt txHash :: rest.trace, rest.result⟩

/-- `waitForTransactionReceipt`, main.go lines 345-355. -/
def waitForTransactionReceipt (receiptAt : Nat → Except String Receipt) (txHash : Bytes32) :
    Run Receipt :=
  waitForTransactionReceipt.loop receiptAt txHash 30 0

/-! ## The demo's fee display (`main.go`, `demoRedEnvelope`) -/

/-- `demoRedEnvelope`, main.go line 216. -/
def demoRedEnvelope.amountPerClaim : Int := 100000000000000000

/-- `demoRedEnvelope`, main.go line 217. -/
def demoRedEnvelope.totalClaims : Uint32 := 5

/-- `demoRedEnvelope`, main.go line 218:
`new(big.Int).Mul(amountPerClaim, big.NewInt(int64(totalClaims)))`. -/
def demoRedEnvelope.grossPot (amountPerClaim : Int) (totalClaims : Uint32) : Int :=
  amountPerClaim * toInt64 totalClaims.val

/-- `demoRedEnvelope`, main.go line 219:
`new(big.Int).Div(new(big.Int).Mul(grossPot, big.NewInt(250)), big.NewInt(10000))`.
`big.Int.Div` is Euclidean division, which is `/` on `Int`. -/
def demoRedEnvelope.fee (grossPot : Int) : Int :=
  grossPot * 250 / 10000

/-- `demoRedEnvelope`, main.go line 220: `new(big.Int).Sub(grossPot, fee)`. -/
def demoRedEnvelope.netPot (grossPot : Int) : Int :=
  grossPot - demoRedEnvelope.fee grossPot

/-! ## Vocabulary of the specification -/

/-- The dynamic type of a Go value. -/
inductive GoType where
  | address | uint8 | uint32 | uint64 | bigInt | bytes32 | bool | struct
deriving DecidableEq, Repr

/-- The dynamic type carried by a `GoValue`. -/
def GoValue.typeOf : GoValue → GoType
  | .address _ => .address
  | .uint8 _ => .uint8
  | .uint32 _ => .uint32
  | .uint64 _ => .uint64
  | .bigInt _ => .bigInt
  | .bytes32 _ => .bytes32
  | .bool _ => .bool
  | .struct _ => .struct

/-- The types `GetEnvelope` asserts at field positions 0 to 10
(service.go lines 199-209). -/
def GetEnvelope.fieldTypes : List GoType :=
  [.address, .address, .uint8, .bigInt, .bigInt, .uint32, .uint32, .uint32, .uint64,
    .bytes32, .address]

/-- Nanoseconds since the Unix epoch of a clock reading (Go `Time.UnixNano`,
without its 64-bit range). -/
def Time.unixNano (t : Time) : Int := t.sec * 1000000000 + t.nsec

/-- Specification side of the expiry: the unix timestamp of the instant
`t + d`, that is the whole seconds since the epoch, rounded down. -/
def Spec.expiryTimestamp (t : Time) (d : Duration) : Int :=
  (t.unixNano + d) / 1000000000

/-! ## The package ABI and the two stages of `boundContract.Call`

`boundContract.Call` sends the packed call to the node and hands the bytes
that come back to `abi.Unpack`, which decodes them under the package ABI.  A
decoding failure is returned by `Call` as its error, like a failure of the
node, and what is decoded without error has the Go types of the method's
outputs. -/

/-- Modelled from the spec: the package constant `RedEnvelopeABI` is declared
outside the sources.  These are the Go types `abi.Unpack` gives the eleven
components of the tuple that `getEnvelope` returns, in the spec's order:
creator, token, kind, amountPerClaim, remainingAmount, totalClaims,
remainingClaims, claimIndex, expiry, roomIdHash, recipient. -/
def RedEnvelopeABI.envelopeTuple : List GoType :=
  [.address, .address, .uint8, .bigInt, .bigInt, .uint32, .uint32, .uint32, .uint64,
    .bytes32, .address]

/-- Modelled from the spec: the shape of what `abi.Unpack` returns without
error for the outputs of a method of `RedEnvelopeABI`: one struct of the
eleven components for `getEnvelope`, one boolean for `hasUserClaimed`, one
integer for `nextEnvelopeId`.  No other method of the package is read. -/
def RedEnvelopeABI.Conforms (method : String) (result : List GoValue) : Prop :=
  if method = "getEnvelope" then
    ∃ fields, result = [.struct fields] ∧
      fields.map (fun f => f.2.typeOf) = RedEnvelopeABI.envelopeTuple
  else if method = "hasUserClaimed" then ∃ b, result = [.bool b]
  else if method = "nextEnvelopeId" then ∃ z, result = [.bigInt z]
  else False

/-- The two stages of `boundContract.Call`: `CallContract` is the node's answer
to the call (the returned bytes, or the failure of the request), `Unpack` is
`abi.Unpack` on those bytes for the named method. -/
structure ReadBackend where
  CallContract : ReadCall → Except String (List Nat)
  Unpack : String → List Nat → Except String (List GoValue)

/-- `boundContract.Call`: the bytes the node returns are decoded; the failure of
either stage is the error of the call. -/
def ReadBackend.Call (b : ReadBackend) (c : ReadCall) : Except String (List GoValue) :=
  match b.CallContract c with
  | .error err => .error err
  | .ok output => b.Unpack c.method output

/-- What `abi.Unpack` guarantees: a result it returns without error has the Go
types of the method's outputs. -/
def ReadBackend.Typed (b : ReadBackend) : Prop :=
  ∀ method output result, b.Unpack method output = .ok result →
    RedEnvelopeABI.Conforms method result

/-! ## The room-hash helper

`GenerateRoomIdHash` calls go-ethereum's `crypto.Keccak256Hash`, the original
Keccak-256: the sponge over the permutation Keccak-f[1600] with a rate of 136
bytes, the padding byte `0x01` (SHA3-256 uses `0x06`) and 32 bytes of output.
The state is the list of its 25 lanes, lane `(x, y)` at index `x + 5 * y`, each
a 64-bit word held as a `Nat` below `2 ^ 64`; bytes are `Nat`s below 256. -/

/-- Rotation of a 64-bit word to the left by `n < 64` bits. -/
def Keccak.rotl64 (x n : Nat) : Nat :=
  ((x <<< n) ||| (x >>> (64 - n))) % 2 ^ 64

/-- The 24 round constants of the iota step. -/
def Keccak.roundConstants : List Nat :=
  [0x0000000000000001, 0x0000000000008082, 0x800000000000808A, 0x8000000080008000,
   0x000000000000808B, 0x0000000080000001, 0x8000000080008081, 0x8000000000008009,
   0x000000000000008A, 0x0000000000000088, 0x0000000080008009, 0x000000008000000A,
   0x000000008000808B, 0x800000000000008B, 0x8000000000008089, 0x8000000000008003,
   0x8000000000008002, 0x8000000000000080, 0x000000000000800A, 0x800000008000000A,
   0x8000000080008081, 0x8000000000008080, 0x0000000080000001, 0x8000000080008008]

/-- The rotation offset of the rho step for each lane. -/
def Keccak.rotationOffsets : List Nat :=
  [0, 1, 62, 28, 27, 36, 44, 6, 55, 20, 3, 10, 43, 25, 39, 41, 45, 15, 21, 8, 18, 2, 61, 56, 14]

/-- The pi step read backwards: entry `j` is the lane that is moved to lane `j`
(lane `(x, y)` goes to lane `(y, 2x + 3y)`). -/
def Keccak.piSource : List Nat :=
  [0, 6, 12, 18, 24, 3, 9, 10, 16, 22, 1, 7, 13, 19, 20, 4, 5, 11, 17, 23, 2, 8, 14, 15, 21]

/-- One round of Keccak-f[1600]: theta (`c`, `d`, `t`), rho and pi (`b`), chi
(`e`), iota. -/
def Keccak.round (a : List Nat) (rc : Nat) : List Nat :=
  let c := (List.range 5).map fun x =>
    a.getD x 0 ^^^ a.getD (x + 5) 0 ^^^ a.getD (x + 10) 0 ^^^ a.getD (x + 15) 0 ^^^
      a.getD (x + 20) 0
  let d := (List.range 5).map fun x =>
    c.getD ((x + 4) % 5) 0 ^^^ Keccak.rotl64 (c.getD ((x + 1) % 5) 0) 1
  let t := (List.range 25).map fun i => a.getD i 0 ^^^ d.getD (i % 5) 0
  let b := Keccak.piSource.map fun j =>
    Keccak.rotl64 (t.getD j 0) (Keccak.rotationOffsets.getD j 0)
  let e := (List.range 25).map fun i =>
    b.getD i 0 ^^^
      (((2 ^ 64 - 1) ^^^ b.getD ((i % 5 + 1) % 5 + 5 * (i / 5)) 0) &&&
        b.getD ((i % 5 + 2) % 5 + 5 * (i / 5)) 0)
  (e.getD 0 0 ^^^ rc) :: e.drop 1

/-- The permutation Keccak-f[1600]: the 24 rounds in order. -/
def Keccak.f1600 (a : List Nat) : List Nat :=
  Keccak.roundConstants.foldl Keccak.round a

/-- The Keccak padding to a multiple of the rate, 136 bytes: the byte `0x01`,
zero bytes, and a last byte with its top bit set (one byte `0x81` when a
single byte is missing). -/
def Keccak.pad (msg : List Nat) : List Nat :=
  let q := 136 - msg.length % 136
  if q = 1 then msg ++ [0x81] else msg ++ [0x01] ++ List.replicate (q - 2) 0 ++ [0x80]

/-- The 64-bit word of up to eight bytes, least significant byte first. -/
def Keccak.lane (bytes : List Nat) : Nat :=
  bytes.foldr (fun b acc => b + 256 * acc) 0

/-- Absorbing one block of 136 bytes: it is xored into the first 17 lanes,
then the permutation is applied. -/
def Keccak.absorbBlock (a : List Nat) (block : List Nat) : List Nat :=
  Keccak.f1600 ((List.range 25).map fun i =>
    a.getD i 0 ^^^ Keccak.lane ((block.drop (8 * i)).take 8))

/-- Absorbing the first `n` blocks of the padded message. -/
def Keccak.absorb : Nat → List Nat → List Nat → List Nat
  | 0, _, a => a
  | n + 1, bytes, a => Keccak.absorb n (bytes.drop 136) (Keccak.absorbBlock a (bytes.take 136))

/-- The eight bytes of a 64-bit word, least significant byte first. -/
def Keccak.laneBytes (x : Nat) : List Nat :=
  (List.range 8).map fun j => (x >>> (8 * j)) % 256

/-- The first 32 bytes of the state: lanes 0 to 3. -/
def Keccak.squeeze (a : List Nat) : List Nat :=
  ((List.range 4).map fun i => Keccak.laneBytes (a.getD i 0)).flatten

/-- Go-ethereum `crypto.Keccak256`: the 32-byte Keccak-256 digest of `msg`. -/
def Keccak256 (msg : List Nat) : List Nat :=
  let p := Keccak.pad msg
  Keccak.squeeze (Keccak.absorb (p.length / 136) p (List.replicate 25 0))

/-- Go-ethereum `common.BytesToHash` on a 32-byte digest: the bytes as a
`[32]byte`, which `Bytes32` reads as a big-endian number. -/
def BytesToHash (digest : List Nat) : Bytes32 :=
  ⟨digest.foldl (fun acc b => acc * 256 + b) 0 % 2 ^ 256, Nat.mod_lt _ (Nat.two_pow_pos 256)⟩

/-- Go-ethereum `crypto.Keccak256Hash`. -/
def Keccak256Hash (data : List Nat) : Bytes32 := BytesToHash (Keccak256 data)

/-- Go `[]byte(s)` for a string holding text: its UTF-8 bytes, nothing added. -/
def utf8Bytes (s : String) : List Nat :=
  s.data.flatMap fun c => (String.utf8EncodeChar c).map UInt8.toNat

/-- `GenerateRoomIdHash`, service.go lines 272-275. -/
def GenerateRoomIdHash (roomId : String) : Bytes32 :=
  Keccak256Hash (utf8Bytes roomId)

/-- Specification side, UTF-8 as RFC 3629 defines it, for one code point `n`:
one byte `0xxxxxxx` up to U+007F, two bytes `110xxxxx 10xxxxxx` up to U+07FF,
three bytes `1110xxxx 10xxxxxx 10xxxxxx` up to U+FFFF, four bytes
`11110xxx 10xxxxxx 10xxxxxx 10xxxxxx` beyond; the `x` are the bits of `n`,
most significant first. -/
def Spec.utf8EncodeChar (c : Char) : List Nat :=
  let n := c.toNat
  if n ≤ 0x7F then [n]
  else if n ≤ 0x7FF then [0xC0 + n / 64, 0x80 + n % 64]
  else if n ≤ 0xFFFF then [0xE0 + n / 4096, 0x80 + n / 64 % 64, 0x80 + n % 64]
  else [0xF0 + n / 262144, 0x80 + n / 4096 % 64, 0x80 + n / 64 % 64, 0x80 + n % 64]

/-- Specification side: the raw UTF-8 bytes of a text, the encodings of its
code points one after the other, with nothing before, between or after. -/
def Spec.utf8Encode (s : String) : List Nat :=
  s.data.flatMap Spec.utf8EncodeChar

/-! ## Concrete worlds used to exercise the theorems -/

/-- A service instance: contract at address 4096, signer at address 17. -/
def sampleService : RedEnvelopeService := ⟨4096, 1, 17, 31337⟩

/-- A node that answers every request: nonce 7, gas price 10^9, every
submission accepted; no contract code lies at the contract address, so every
read call fails; the clock reads 2026-11-04 00:00:00 UTC. -/
def sampleEnv : Env :=
  ⟨⟨1793750400, 0⟩, fun _ => .ok 7, .ok 1000000000, fun _ _ => .ok (),
    fun _ => .ok ⟨1⟩, fun _ => .error "no contract code at given address"⟩

/-- A node whose `getEnvelope` read returns one eleven-field tuple (field names
as the ABI decoder capitalises them), whose `hasUserClaimed` read returns
`false` and whose `nextEnvelopeId` read returns 4. -/
def tupleEnv : Env :=
  ⟨⟨1793750400, 0⟩, fun _ => .ok 7, .ok 1000000000, fun _ _ => .ok (),
    fun _ => .ok ⟨1⟩,
    fun c =>
      if c.method = "getEnvelope" then
        .ok [.struct [("Creator", .address 17), ("Token", .address 0), ("Kind", .uint8 1),
          ("AmountPerClaim", .bigInt 100), ("RemainingAmount", .bigInt 500),
          ("TotalClaims", .uint32 5), ("RemainingClaims", .uint32 5), ("ClaimIndex", .uint32 0),
          ("Expiry", .uint64 1793754000), ("RoomIdHash", .bytes32 0),
          ("Recipient", .address 0)]]
      else if c.method = "hasUserClaimed" then .ok [.bool false]
      else if c.method = "nextEnvelopeId" then .ok [.bigInt 4]
      else .error ("method '" ++ c.method ++ "' not found")⟩

/-- A node whose pending-nonce query fails. -/
def nonceFailEnv : Env :=
  ⟨⟨1793750400, 0⟩, fun _ => .error "connection refused", .ok 1000000000, fun _ _ => .ok (),
    fun _ => .ok ⟨1⟩, fun _ => .error "connection refused"⟩

/-- A node that answers the nonce query and fails the gas-price query. -/
def gasFailEnv : Env :=
  ⟨⟨1793750400, 0⟩, fun _ => .ok 7, .error "connection refused", fun _ _ => .ok (),
    fun _ => .ok ⟨1⟩, fun _ => .error "connection refused"⟩

/-- A node that rejects every submission and fails every read call with the
message `execution reverted`. -/
def rejectEnv : Env :=
  ⟨⟨1793750400, 0⟩, fun _ => .ok 7, .ok 1000000000, fun _ _ => .ok (),
    fun _ => .error "execution reverted", fun _ => .error "execution reverted"⟩

/-- A node whose read calls answer `true` to `hasUserClaimed` and 42 to
`nextEnvelopeId`; its `getEnvelope` read reverts. -/
def readEnv : Env :=
  ⟨⟨1793750400, 0⟩, fun _ => .ok 7, .ok 1000000000, fun _ _ => .ok (),
    fun _ => .ok ⟨1⟩,
    fun c =>
      if c.method = "hasUserClaimed" then .ok [.bool true]
      else if c.method = "nextEnvelopeId" then .ok [.bigInt 42]
      else if c.method = "getEnvelope" then .error "execution reverted"
      else .error ("method '" ++ c.method ++ "' not found")⟩

/-- A node reporting the pending nonce `2 ^ 63`. -/
def hugeNonceEnv : Env :=
  ⟨⟨1793750400, 0⟩, fun _ => .ok 9223372036854775808, .ok 1000000000, fun _ _ => .ok (),
    fun _ => .ok ⟨1⟩, fun _ => .error "no contract code at given address"⟩

/-! ### A decoder for the package ABI

The decoding go-ethereum's `abi.Unpack` performs for the three read methods,
whose outputs are static: every component is one 32-byte word. -/

/-- The number a byte string denotes, most significant byte first. -/
def bigEndian (bytes : List Nat) : Nat :=
  bytes.foldl (fun acc b => acc * 256 + b) 0

/-- Word `i` of an output: its bytes `32 * i` to `32 * i + 31`. -/
def abiWord (output : List Nat) (i : Nat) : Nat :=
  bigEndian ((output.drop (32 * i)).take 32)

/-- The message of `toGoType` when the output ends before the word it needs. -/
def lengthInsufficient (got need : Nat) : String :=
  "abi: cannot marshal in to go type: length insufficient " ++ toString got ++
    " require " ++ toString need

/-- Reading one word as a value of a static type: an address is the last 20
bytes, a `uint8`, `uint32` or `uint64` must fit its width, a `uint256` and a
`bytes32` take the whole word, a boolean must be 0 or 1. -/
def abiReadWord (ty : GoType) (w : Nat) : Except String GoValue :=
  match ty with
  | .address => .ok (.address ⟨w % 2 ^ 160, Nat.mod_lt _ (Nat.two_pow_pos 160)⟩)
  | .uint8 =>
    if w < 2 ^ 8 then .ok (.uint8 ⟨w % 2 ^ 8, Nat.mod_lt _ (Nat.two_pow_pos 8)⟩)
    else .error "abi: improperly encoded uint8 value"
  | .uint32 =>
    if w < 2 ^ 32 then .ok (.uint32 ⟨w % 2 ^ 32, Nat.mod_lt _ (Nat.two_pow_pos 32)⟩)
    else .error "abi: improperly encoded uint32 value"
  | .uint64 =>
    if w < 2 ^ 64 then .ok (.uint64 ⟨w % 2 ^ 64, Nat.mod_lt _ (Nat.two_pow_pos 64)⟩)
    else .error "abi: improperly encoded uint64 value"
  | .bigInt => .ok (.bigInt w)
  | .bytes32 => .ok (.bytes32 ⟨w % 2 ^ 256, Nat.mod_lt _ (Nat.two_pow_pos 256)⟩)
  | .bool =>
    if w = 0 then .ok (.bool false)
    else if w = 1 then .ok (.bool true)
    else .error "abi: improperly encoded boolean value"
  | .struct => .error "abi: nested tuple in a static tuple"

/-- Reading the components of a static tuple from word `i` on, in order; the
first component that cannot be read gives the error. -/
def abiReadFields (output : List Nat) : Nat → List (String × GoType) →
    Except String (List (String × GoValue))
  | _, [] => .ok []
  | i, (name, ty) :: rest =>
    if 32 * (i + 1) > output.length then
      .error (lengthInsufficient output.length (32 * (i + 1)))
    else
      match abiReadWord ty (abiWord output i) with
      | .error err => .error err
      | .ok v =>
        match abiReadFields output (i + 1) rest with
        | .error err => .error err
        | .ok vs => .ok ((name, v) :: vs)

/-- The components of the tuple `getEnvelope` returns, named as the decoder
names the fields of the struct it builds. -/
def envelopeComponents : List (String × GoType) :=
  [("Creator", .address), ("Token", .address), ("Kind", .uint8), ("AmountPerClaim", .bigInt),
    ("RemainingAmount", .bigInt), ("TotalClaims", .uint32), ("RemainingClaims", .uint32),
    ("ClaimIndex", .uint32), ("Expiry", .uint64), ("RoomIdHash", .bytes32),
    ("Recipient", .address)]

/-- The decoder for the three read methods.  An empty output and an output that
is not a whole number of words are refused before any component is read (for
the latter go-ethereum appends a dump of the bytes to the message). -/
def abiUnpack (method : String) (output : List Nat) : Except String (List GoValue) :=
  if output = [] then
    .error "abi: attempting to unmarshall an empty string while arguments are expected"
  else if output.length % 32 ≠ 0 then .error "abi: improperly formatted output"
  else if method = "getEnvelope" then
    match abiReadFields output 0 envelopeComponents with
    | .error err => .error err
    | .ok fields => .ok [.struct fields]
  else if method = "hasUserClaimed" then
    match abiReadFields output 0 [("", .bool)] with
    | .ok [(_, .bool b)] => .ok [.bool b]
    | .ok _ => .error "abi: improperly encoded boolean value"
    | .error err => .error err
  else if method = "nextEnvelopeId" then
    match abiReadFields output 0 [("", .bigInt)] with
    | .ok [(_, .bigInt z)] => .ok [.bigInt z]
    | .ok _ => .error "abi: improperly formatted output"
    | .error err => .error err
  else .error ("abi: could not locate named method or event: " ++ method)

/-- A node that answers every read call with 64 zero bytes, two words where
`getEnvelope` needs eleven, decoded by `abiUnpack`. -/
def truncatedBackend : ReadBackend :=
  ⟨fun _ => .ok (List.replicate 64 0), abiUnpack⟩

/-- The sample node with the read calls of `truncatedBackend`. -/
def truncatedEnv : Env :=
  ⟨⟨1793750400, 0⟩, fun _ => .ok 7, .ok 1000000000, fun _ _ => .ok (),
    fun _ => .ok ⟨1⟩, truncatedBackend.Call⟩

/-! ### Surroundings of the construction

The development node of `main.go`: URL `http://127.0.0.1:8545`, chain 31337,
first development key, contract `0x5FbDB2315678afecb367f032d93F642f64180aa3`. -/

/-- The value of a byte that is a hexadecimal digit. -/
def hexDigitValue (b : Nat) : Option Nat :=
  if 48 ≤ b ∧ b ≤ 57 then some (b - 48)
  else if 97 ≤ b ∧ b ≤ 102 then some (b - 87)
  else if 65 ≤ b ∧ b ≤ 70 then some (b - 55)
  else none

/-- Two lower-case hexadecimal digits of a byte. -/
def hexByte (b : Nat) : String :=
  String.mk [(Nat.toDigits 16 (b / 16 % 16)).headD '0', (Nat.toDigits 16 (b % 16)).headD '0']

/-- Go's `%q` of a byte: the quoted character, escaped as Go syntax demands. -/
def quoteByte (b : Nat) : String :=
  if b = 39 then "'\\''"
  else if b = 92 then "'\\\\'"
  else if (32 ≤ b ∧ b ≤ 126) ∨ (161 ≤ b ∧ b ≤ 255 ∧ b ≠ 173) then
    "'" ++ String.singleton (Char.ofNat b) ++ "'"
  else if b = 7 then "'\\a'"
  else if b = 8 then "'\\b'"
  else if b = 12 then "'\\f'"
  else if b = 10 then "'\\n'"
  else if b = 13 then "'\\r'"
  else if b = 9 then "'\\t'"
  else if b = 11 then "'\\v'"
  else if b < 32 ∨ b = 127 then "'\\x" ++ hexByte b ++ "'"
  else "'\\u00" ++ hexByte b ++ "'"

/-- The order of the group of secp256k1. -/
def secp256k1N : Nat :=
  0xFFFFFFFFFFFFFFFFFFFFFFFFFFFFFFFEBAAEDCE6AF48A03BBFD25E8CD0364141

/-- Go-ethereum `crypto.HexToECDSA`: the key is 64 hexadecimal digits denoting a
number from 1 to `secp256k1N - 1`; the first byte that is no hexadecimal digit
is reported, then an odd length, then a wrong length, then the range. -/
def cryptoHexToECDSA (hexkey : String) : Except String Nat :=
  let bytes := utf8Bytes hexkey
  match bytes.find? (fun b => (hexDigitValue b).isNone) with
  | some b => .error ("invalid hex character " ++ quoteByte b ++ " in private key")
  | none =>
    if bytes.length % 2 = 1 then .error "invalid hex data for private key"
    else if bytes.length ≠ 64 then .error "invalid length, need 256 bits"
    else
      let d := bytes.foldl (fun acc b => acc * 16 + (hexDigitValue b).getD 0) 0
      if d ≥ secp256k1N then .error "invalid private key, >=N"
      else if d = 0 then .error "invalid private key, zero or negative"
      else .ok d

/-- How `ethclient.Dial` reads the URLs used here: `http://` and `https://` give
the HTTP transport, `ws://` and `wss://` a websocket, which connects while
dialling; a URL of another form is refused. -/
def sampleTransport (rpcURL : String) : Except String Transport :=
  if "http://".data.isPrefixOf rpcURL.data || "https://".data.isPrefixOf rpcURL.data then
    .ok .http
  else if "ws://".data.isPrefixOf rpcURL.data || "wss://".data.isPrefixOf rpcURL.data then
    .ok .connecting
  else .error "no known transport for URL scheme"

/-- The development node is up: chain 31337; the signer's address is the one
go-ethereum derives from the first development key, the contract address is
the one of `main.go` (neither derivation is modelled: the world records the
two values it uses). -/
def devWorld : Surroundings :=
  ⟨sampleTransport, fun _ => true, fun _ => "connection refused", fun _ => .ok 31337,
    cryptoHexToECDSA, fun _ => 0xf39Fd6e51aad88F6F4ce6aB8827279cffFb92266, .ok (),
    fun _ => 0x5FbDB2315678afecb367f032d93F642f64180aa3⟩

/-- The same surroundings with no node answering: every attempt to reach one
ends in the operating system's `connection refused`, as the HTTP client and
the dialler of go-ethereum report it for port 8545. -/
def downWorld : Surroundings :=
  ⟨sampleTransport, fun _ => false,
    fun rpcURL =>
      if "http".data.isPrefixOf rpcURL.data then
        "Post \"" ++ rpcURL ++ "\": dial tcp 127.0.0.1:8545: connect: connection refused"
      else "dial tcp 127.0.0.1:8545: connect: connection refused",
    fun _ => .ok 31337,
    cryptoHexToECDSA, fun _ => 0xf39Fd6e51aad88F6F4ce6aB8827279cffFb92266, .ok (),
    fun _ => 0x5FbDB2315678afecb367f032d93F642f64180aa3⟩

/-- Receipt queries that fail twice with `not found` and succeed from the third
query on. -/
def thirdQueryMined : Nat → Except String Receipt :=
  fun i => if i < 2 then .error "not found" else .ok ⟨1⟩

/-! ## Theorems -/

/-- C1: for kind `GROUP_FIXED` the gross pot computed by `CreateEnvelope` is the
exact integer product `amount × totalClaims`, for every integer amount and
every unsigned 32-bit `totalClaims`: the conversion `int64(totalClaims)` never
wraps. -/
theorem createEnvelope_grossPot_groupFixed (totalClaims : Uint32) (amount : Int) :
    CreateEnvelope.grossPot GROUP_FIXED totalClaims amount = amount * (totalClaims.val : Int) := by
  have h : totalClaims.val < 2 ^ 32 := totalClaims.isLt
  have hmod : totalClaims.val % 2 ^ 64 = totalClaims.val := Nat.mod_eq_of_lt (by omega)
  simp only [CreateEnvelope.grossPot, if_true, toInt64, hmod]
  rw [if_pos (by omega)]

/-! ### What the mutating operations submit -/

theorem mem_submitted_createEnvelope (s : RedEnvelopeService) (env : Env)
    (kind : Uint8) (token : Address) (totalClaims : Uint32) (amount : Int)
    (expiryDuration : Duration) (roomIdHash : Bytes32) (recipient : Address)
    (c : TransactCall)
    (hc : c ∈ submitted (s.CreateEnvelope env kind token totalClaims amount expiryDuration
      roomIdHash recipient).trace) :
    ∃ nonce gasPrice, env.PendingNonceAt s.Address = .ok nonce ∧
      env.SuggestGasPrice = .ok gasPrice ∧
      c = ⟨s.ContractAddress,
        ⟨toInt64 nonce.val, CreateEnvelope.value kind token totalClaims amount, gasPrice, 500000⟩,
        "createEnvelope",
        [.uint8 kind, .address token, .uint32 totalClaims, .bigInt amount,
          .uint64 (CreateEnvelope.expiry env.Now expiryDuration),
          .bytes32 roomIdHash, .address recipient]⟩ := by
  cases hn : env.PendingNonceAt s.Address with
  | error e => simp [RedEnvelopeService.CreateEnvelope, hn, submitted] at hc
  | ok nonce =>
    cases hg : env.SuggestGasPrice with
    | error e => simp [RedEnvelopeService.CreateEnvelope, hn, hg, submitted] at hc
    | ok gasPrice =>
      cases ht : env.NewKeyedTransactorWithChainID s.PrivateKey s.ChainID with
      | error e => simp [RedEnvelopeService.CreateEnvelope, hn, hg, ht, submitted] at hc
      | ok u =>
        refine ⟨nonce, gasPrice, rfl, rfl, ?_⟩
        simp only [RedEnvelopeService.CreateEnvelope, hn, hg, ht] at hc
        split at hc <;> simpa [submitted] using hc

theorem mem_submitted_claimEnvelope (s : RedEnvelopeService) (env : Env) (envelopeId : Int)
    (c : TransactCall) (hc : c ∈ submitted (s.ClaimEnvelope env envelopeId).trace) :
    ∃ nonce gasPrice, env.PendingNonceAt s.Address = .ok nonce ∧
      env.SuggestGasPrice = .ok gasPrice ∧
      c = ⟨s.ContractAddress, ⟨toInt64 nonce.val, 0, gasPrice, 300000⟩,
        "claimEnvelope", [.bigInt envelopeId]⟩ := by
  cases hn : env.PendingNonceAt s.Address with
  | error e => simp [RedEnvelopeService.ClaimEnvelope, hn, submitted] at hc
  | ok nonce =>
    cases hg : env.SuggestGasPrice with
    | error e => simp [RedEnvelopeService.ClaimEnvelope, hn, hg, submitted] at hc
    | ok gasPrice =>
      cases ht : env.NewKeyedTransactorWithChainID s.PrivateKey s.ChainID with
      | error e => simp [RedEnvelopeService.ClaimEnvelope, hn, hg, ht, submitted] at hc
      | ok u =>
        refine ⟨nonce, gasPrice, rfl, rfl, ?_⟩
        simp only [RedEnvelopeService.ClaimEnvelope, hn, hg, ht] at hc
        split at hc <;> simpa [submitted] using hc

theorem mem_submitted_refundEnvelope (s : RedEnvelopeService) (env : Env) (envelopeId : Int)
    (c : TransactCall) (hc : c ∈ submitted (s.RefundEnvelope env envelopeId).trace) :
    ∃ nonce gasPrice, env.PendingNonceAt s.Address = .ok nonce ∧
      env.SuggestGasPrice = .ok gasPrice ∧
      c = ⟨s.ContractAddress, ⟨toInt64 nonce.val, 0, gasPrice, 300000⟩,
        "refundEnvelope", [.bigInt envelopeId]⟩ := by
  cases hn : env.PendingNonceAt s.Address with
  | error e => simp [RedEnvelopeService.RefundEnvelope, hn, submitted] at hc
  | ok nonce =>
    cases hg : env.SuggestGasPrice with
    | error e => simp [RedEnvelopeService.RefundEnvelope, hn, hg, submitted] at hc
    | ok gasPrice =>
      cases ht : env.NewKeyedTransactorWithChainID s.PrivateKey s.ChainID with
      | error e => simp [RedEnvelopeService.RefundEnvelope, hn, hg, ht, submitted] at hc
      | ok u =>
        refine ⟨nonce, gasPrice, rfl, rfl, ?_⟩
        simp only [RedEnvelopeService.RefundEnvelope, hn, hg, ht] at hc
        split at hc <;> simpa [submitted] using hc

/-! ### Gross pot, attached value and call arguments of `CreateEnvelope` -/

/-- C2: for kind `DIRECT_FIXED` or `GROUP_RANDOM` the gross pot computed by
`CreateEnvelope` is `amount` unchanged, whatever `totalClaims` is. -/
theorem createEnvelope_grossPot_direct_or_random (kind : Uint8) (totalClaims : Uint32)
    (amount : Int) (hk : kind = DIRECT_FIXED ∨ kind = GROUP_RANDOM) :
    CreateEnvelope.grossPot kind totalClaims amount = amount := by
  have hne : kind ≠ GROUP_FIXED := by
    rcases hk with h | h <;> subst h <;> decide
  simp [CreateEnvelope.grossPot, hne]

/-- C2 at kind `GROUP_RANDOM`, amount 1000 and 4294967295 claims. -/
theorem createEnvelope_grossPot_direct_or_random_witness :
    CreateEnvelope.grossPot GROUP_RANDOM 4294967295 1000 = 1000 :=
  createEnvelope_grossPot_direct_or_random GROUP_RANDOM 4294967295 1000 (Or.inr rfl)

/-- C3: in every transaction `CreateEnvelope` submits, the attached value is the
gross pot when `token` is the zero address and is 0 for every other token
address, whatever the kind, amount and `totalClaims`. -/
theorem createEnvelope_attached_value (s : RedEnvelopeService) (env : Env)
    (kind : Uint8) (token : Address) (totalClaims : Uint32) (amount : Int)
    (expiryDuration : Duration) (roomIdHash : Bytes32) (recipient : Address)
    (c : TransactCall)
    (hc : c ∈ submitted (s.CreateEnvelope env kind token totalClaims amount expiryDuration
      roomIdHash recipient).trace) :
    (token = 0 → c.opts.Value = CreateEnvelope.grossPot kind totalClaims amount) ∧
      (token ≠ 0 → c.opts.Value = 0) := by
  obtain ⟨nonce, gasPrice, _, _, rfl⟩ :=
    mem_submitted_createEnvelope s env kind token totalClaims amount expiryDuration
      roomIdHash recipient c hc
  constructor
  · intro h
    simp [CreateEnvelope.value, h]
  · intro h
    simp [CreateEnvelope.value, h]

/-- C3 on the sample node: a native-token `GROUP_FIXED` envelope of 5 claims of
100 carries value 500, the same envelope on token 9 carries value 0. -/
theorem createEnvelope_attached_value_witness :
    (∃ c, c ∈ submitted (sampleService.CreateEnvelope sampleEnv GROUP_FIXED 0 5 100
        3600000000000 0 0).trace ∧ c.opts.Value = 500) ∧
      (∃ c, c ∈ submitted (sampleService.CreateEnvelope sampleEnv GROUP_FIXED 9 5 100
        3600000000000 0 0).trace ∧ c.opts.Value = 0) := by
  refine ⟨⟨_, List.Mem.head _, ?_⟩, ⟨_, List.Mem.head _, ?_⟩⟩
  · exact ((createEnvelope_attached_value sampleService sampleEnv GROUP_FIXED 0 5 100
      3600000000000 0 0 _ (List.Mem.head _)).1 rfl).trans (by decide)
  · exact (createEnvelope_attached_value sampleService sampleEnv GROUP_FIXED 9 5 100
      3600000000000 0 0 _ (List.Mem.head _)).2 (by decide)

/-- C4: every `createEnvelope` contract call that `CreateEnvelope` makes passes
the arguments kind, token, totalClaims, amount, expiry, roomIdHash, recipient
in that order, the amount being the caller's amount unmodified (for
`GROUP_FIXED` the per-claim amount, not the product); the gross pot appears
only as the attached value. -/
theorem createEnvelope_call_arguments (s : RedEnvelopeService) (env : Env)
    (kind : Uint8) (token : Address) (totalClaims : Uint32) (amount : Int)
    (expiryDuration : Duration) (roomIdHash : Bytes32) (recipient : Address)
    (c : TransactCall)
    (hc : c ∈ submitted (s.CreateEnvelope env kind token totalClaims amount expiryDuration
      roomIdHash recipient).trace) :
    c.method = "createEnvelope" ∧
      c.args = [.uint8 kind, .address token, .uint32 totalClaims, .bigInt amount,
        .uint64 (CreateEnvelope.expiry env.Now expiryDuration),
        .bytes32 roomIdHash, .address recipient] ∧
      c.opts.Value = (if token = 0 then CreateEnvelope.grossPot kind totalClaims amount else 0) := by
  obtain ⟨nonce, gasPrice, _, _, rfl⟩ :=
    mem_submitted_createEnvelope s env kind token totalClaims amount expiryDuration
      roomIdHash recipient c hc
  exact ⟨rfl, rfl, rfl⟩

/-- C4 on the sample node: for a `GROUP_FIXED` envelope of 5 claims of 100 the
fourth argument is 100 while the attached value is 500. -/
theorem createEnvelope_call_arguments_witness :
    ∃ c, c ∈ submitted (sampleService.CreateEnvelope sampleEnv GROUP_FIXED 0 5 100
        3600000000000 0 0).trace ∧
      c.method = "createEnvelope" ∧
      c.args = [.uint8 GROUP_FIXED, .address 0, .uint32 5, .bigInt 100,
        .uint64 (CreateEnvelope.expiry sampleEnv.Now 3600000000000),
        .bytes32 0, .address 0] ∧
      c.opts.Value = 500 := by
  refine ⟨_, List.Mem.head _, ?_⟩
  have h := createEnvelope_call_arguments sampleService sampleEnv GROUP_FIXED 0 5 100
    3600000000000 0 0 _ (List.Mem.head _)
  exact ⟨h.1, h.2.1, h.2.2.trans (by decide)⟩

/-! ### Decoding in `GetEnvelope` -/

/-- C5: when the `getEnvelope` call returns a tuple with the eleven expected
fields `f0 .. f10`, `GetEnvelope` returns the envelope whose fields are
`f0 .. f10` in declaration order, each value unchanged; the field names
`n0 .. n10` of the tuple are arbitrary and play no part. -/
theorem getEnvelope_decodes_by_position (s : RedEnvelopeService) (env : Env) (envelopeId : Int)
    (n0 n1 n2 n3 n4 n5 n6 n7 n8 n9 n10 : String)
    (f0 f1 : Address) (f2 : Uint8) (f3 f4 : Int) (f5 f6 f7 : Uint32) (f8 : Uint64)
    (f9 : Bytes32) (f10 : Address)
    (hcall : env.Call ⟨s.ContractAddress, "getEnvelope", [.bigInt envelopeId]⟩ =
      .ok [.struct [(n0, .address f0), (n1, .address f1), (n2, .uint8 f2), (n3, .bigInt f3),
        (n4, .bigInt f4), (n5, .uint32 f5), (n6, .uint32 f6), (n7, .uint32 f7),
        (n8, .uint64 f8), (n9, .bytes32 f9), (n10, .address f10)]]) :
    (s.GetEnvelope env envelopeId).result =
      .ok ⟨f0, f1, f2, f3, f4, f5, f6, f7, f8, f9, f10⟩ := by
  simp only [RedEnvelopeService.GetEnvelope, hcall]
  rfl

/-- C5 on a node returning a concrete eleven-field tuple. -/
theorem getEnvelope_decodes_by_position_witness :
    (sampleService.GetEnvelope tupleEnv 3).result =
      .ok ⟨17, 0, 1, 100, 500, 5, 5, 0, 1793754000, 0, 0⟩ :=
  getEnvelope_decodes_by_position sampleService tupleEnv 3
    "Creator" "Token" "Kind" "AmountPerClaim" "RemainingAmount" "TotalClaims"
    "RemainingClaims" "ClaimIndex" "Expiry" "RoomIdHash" "Recipient"
    17 0 1 100 500 5 5 0 1793754000 0 0 rfl

theorem typeOf_eq_address (v : GoValue) (h : v.typeOf = .address) : ∃ a, v = .address a := by
  cases v <;> first | exact ⟨_, rfl⟩ | cases h

theorem typeOf_eq_uint8 (v : GoValue) (h : v.typeOf = .uint8) : ∃ n, v = .uint8 n := by
  cases v <;> first | exact ⟨_, rfl⟩ | cases h

theorem typeOf_eq_uint32 (v : GoValue) (h : v.typeOf = .uint32) : ∃ n, v = .uint32 n := by
  cases v <;> first | exact ⟨_, rfl⟩ | cases h

theorem typeOf_eq_uint64 (v : GoValue) (h : v.typeOf = .uint64) : ∃ n, v = .uint64 n := by
  cases v <;> first | exact ⟨_, rfl⟩ | cases h

theorem typeOf_eq_bigInt (v : GoValue) (h : v.typeOf = .bigInt) : ∃ z, v = .bigInt z := by
  cases v <;> first | exact ⟨_, rfl⟩ | cases h

theorem typeOf_eq_bytes32 (v : GoValue) (h : v.typeOf = .bytes32) : ∃ b, v = .bytes32 b := by
  cases v <;> first | exact ⟨_, rfl⟩ | cases h

/-- On a struct whose fields have the types of the ABI's tuple, every field
read and every type assertion of `GetEnvelope` goes through. -/
theorem decode_of_conforms (fields : List (String × GoValue))
    (h : fields.map (fun f => f.2.typeOf) = RedEnvelopeABI.envelopeTuple) :
    ∃ envelope, GetEnvelope.decode [.struct fields] = some envelope := by
  unfold RedEnvelopeABI.envelopeTuple at h
  rcases fields with _ | ⟨⟨n0, v0⟩, _ | ⟨⟨n1, v1⟩, _ | ⟨⟨n2, v2⟩, _ | ⟨⟨n3, v3⟩, _ | ⟨⟨n4, v4⟩, _ | ⟨⟨n5, v5⟩, _ | ⟨⟨n6, v6⟩, _ | ⟨⟨n7, v7⟩, _ | ⟨⟨n8, v8⟩, _ | ⟨⟨n9, v9⟩, _ | ⟨⟨n10, v10⟩, rest⟩⟩⟩⟩⟩⟩⟩⟩⟩⟩⟩
  all_goals try (simp at h; done)
  simp only [List.map, List.cons.injEq, List.map_eq_nil_iff] at h
  obtain ⟨h0, h1, h2, h3, h4, h5, h6, h7, h8, h9, h10, rfl⟩ := h
  obtain ⟨x0, rfl⟩ := typeOf_eq_address v0 h0
  obtain ⟨x1, rfl⟩ := typeOf_eq_address v1 h1
  obtain ⟨x2, rfl⟩ := typeOf_eq_uint8 v2 h2
  obtain ⟨x3, rfl⟩ := typeOf_eq_bigInt v3 h3
  obtain ⟨x4, rfl⟩ := typeOf_eq_bigInt v4 h4
  obtain ⟨x5, rfl⟩ := typeOf_eq_uint32 v5 h5
  obtain ⟨x6, rfl⟩ := typeOf_eq_uint32 v6 h6
  obtain ⟨x7, rfl⟩ := typeOf_eq_uint32 v7 h7
  obtain ⟨x8, rfl⟩ := typeOf_eq_uint64 v8 h8
  obtain ⟨x9, rfl⟩ := typeOf_eq_bytes32 v9 h9
  obtain ⟨x10, rfl⟩ := typeOf_eq_address v10 h10
  exact ⟨_, rfl⟩

/-- C6: let the read calls be what `boundContract.Call` makes of them, the
node's bytes decoded by `abi.Unpack` under the package ABI.  Whenever the
`getEnvelope` call reaches the node and the returned data does not decode
(it does not have the shape of the eleven-field tuple: the decoder refuses it
with message `m`), `GetEnvelope` returns the error `failed to get envelope: m`
to its caller, so no envelope; it never panics; and it returns an envelope
only from data that decoded into the eleven-field tuple. -/
theorem getEnvelope_decode_error (s : RedEnvelopeService) (env : Env) (b : ReadBackend)
    (envelopeId : Int) (hcall : ∀ c, env.Call c = b.Call c) (htyped : b.Typed) :
    (∀ output m,
        b.CallContract ⟨s.ContractAddress, "getEnvelope", [.bigInt envelopeId]⟩ = .ok output →
        b.Unpack "getEnvelope" output = .error m →
        (s.GetEnvelope env envelopeId).result = .error ("failed to get envelope: " ++ m)) ∧
      (s.GetEnvelope env envelopeId).result ≠ .panic ∧
      (∀ envelope, (s.GetEnvelope env envelopeId).result = .ok envelope →
        ∃ output fields,
          b.CallContract ⟨s.ContractAddress, "getEnvelope", [.bigInt envelopeId]⟩ =
            .ok output ∧
          b.Unpack "getEnvelope" output = .ok [.struct fields] ∧
          fields.map (fun f => f.2.typeOf) = RedEnvelopeABI.envelopeTuple) := by
  refine ⟨?_, ?_, ?_⟩
  · intro output m hcc hun
    simp only [RedEnvelopeService.GetEnvelope, hcall, ReadBackend.Call, hcc, hun]
  · cases hcc : b.CallContract ⟨s.ContractAddress, "getEnvelope", [.bigInt envelopeId]⟩ with
    | error e =>
      simp only [RedEnvelopeService.GetEnvelope, hcall, ReadBackend.Call, hcc]
      intro h
      cases h
    | ok output =>
      cases hun : b.Unpack "getEnvelope" output with
      | error e =>
        simp only [RedEnvelopeService.GetEnvelope, hcall, ReadBackend.Call, hcc, hun]
        intro h
        cases h
      | ok result =>
        have hconf := htyped _ _ _ hun
        simp only [RedEnvelopeABI.Conforms, if_true] at hconf
        obtain ⟨fields, rfl, hty⟩ := hconf
        obtain ⟨envelope, he⟩ := decode_of_conforms fields hty
        simp only [RedEnvelopeService.GetEnvelope, hcall, ReadBackend.Call, hcc, hun, he]
        intro h
        cases h
  · intro envelope hres
    cases hcc : b.CallContract ⟨s.ContractAddress, "getEnvelope", [.bigInt envelopeId]⟩ with
    | error e =>
      simp only [RedEnvelopeService.GetEnvelope, hcall, ReadBackend.Call, hcc] at hres
      cases hres
    | ok output =>
      cases hun : b.Unpack "getEnvelope" output with
      | error e =>
        simp only [RedEnvelopeService.GetEnvelope, hcall, ReadBackend.Call, hcc, hun] at hres
        cases hres
      | ok result =>
        have hconf := htyped _ _ _ hun
        simp only [RedEnvelopeABI.Conforms, if_true] at hconf
        obtain ⟨fields, rfl, hty⟩ := hconf
        exact ⟨output, fields, rfl, hun, hty⟩

theorem abiReadWord_typeOf (ty : GoType) (w : Nat) (v : GoValue)
    (h : abiReadWord ty w = .ok v) : v.typeOf = ty := by
  cases ty <;> simp only [abiReadWord] at h
  · cases h
    rfl
  · split at h <;> cases h
    rfl
  · split at h <;> cases h
    rfl
  · split at h <;> cases h
    rfl
  · cases h
    rfl
  · cases h
    rfl
  · split at h
    · cases h
      rfl
    · split at h <;> cases h
      rfl
  · cases h

theorem abiReadFields_types (output : List Nat) (comps : List (String × GoType)) (i : Nat)
    (vs : List (String × GoValue)) (h : abiReadFields output i comps = .ok vs) :
    vs.map (fun f => f.2.typeOf) = comps.map (fun f => f.2) := by
  induction comps generalizing i vs with
  | nil =>
    simp only [abiReadFields] at h
    cases h
    rfl
  | cons c rest ih =>
    obtain ⟨name, ty⟩ := c
    simp only [abiReadFields] at h
    split at h
    · cases h
    · split at h
      · cases h
      · rename_i v hv
        split at h
        · cases h
        · rename_i vs2 hvs
          cases h
          simp only [List.map, abiReadWord_typeOf ty _ v hv, ih (i + 1) vs2 hvs]

/-- The decoder keeps the guarantee of `abi.Unpack`. -/
theorem abiUnpack_typed (cc : ReadCall → Except String (List Nat)) :
    (ReadBackend.mk cc abiUnpack).Typed := by
  intro method output result h
  simp only [abiUnpack] at h
  split at h
  · cases h
  split at h
  · cases h
  split at h
  · rename_i hm
    split at h
    · cases h
    · rename_i fields hf
      cases h
      simp only [RedEnvelopeABI.Conforms, hm, if_true]
      exact ⟨fields, rfl, abiReadFields_types _ _ _ _ hf⟩
  split at h
  · rename_i hm1 hm
    split at h
    · cases h
      simp only [RedEnvelopeABI.Conforms, hm1, hm, if_true, if_false]
      exact ⟨_, rfl⟩
    · cases h
    · cases h
  split at h
  · rename_i hm1 hm2 hm
    split at h
    · cases h
      simp only [RedEnvelopeABI.Conforms, hm1, hm2, hm, if_true, if_false]
      exact ⟨_, rfl⟩
    · cases h
    · cases h
  · cases h

/-- C6 on a node that answers the `getEnvelope` call with 64 bytes, two words
where the tuple needs eleven: the decoder stops at the third component, and
`GetEnvelope` returns that decoding error behind its prefix. -/
theorem getEnvelope_decode_error_witness :
    truncatedBackend.Unpack "getEnvelope" (List.replicate 64 0) =
        .error "abi: cannot marshal in to go type: length insufficient 64 require 96" ∧
      (sampleService.GetEnvelope truncatedEnv 3).result =
        .error ("failed to get envelope: " ++
          "abi: cannot marshal in to go type: length insufficient 64 require 96") ∧
      (sampleService.GetEnvelope truncatedEnv 3).result ≠ .panic := by
  have h := getEnvelope_decode_error sampleService truncatedEnv truncatedBackend 3
    (fun _ => rfl) (abiUnpack_typed _)
  have hun : truncatedBackend.Unpack "getEnvelope" (List.replicate 64 0) =
      .error "abi: cannot marshal in to go type: length insufficient 64 require 96" := by
    rfl
  exact ⟨hun, h.1 _ _ rfl hun, h.2.1⟩

/-! ### Client-side fee arithmetic of the demo -/

/-- C7: for `GROUP_FIXED`, 5 claims and amount 100000000000000000 the gross pot
is 500000000000000000 (both in `CreateEnvelope` and in the demo), the fee at
250 basis points is 12500000000000000 and the net pot 487500000000000000. -/
theorem demo_groupFixed_amounts :
    CreateEnvelope.grossPot GROUP_FIXED 5 100000000000000000 = 500000000000000000 ∧
      demoRedEnvelope.grossPot demoRedEnvelope.amountPerClaim demoRedEnvelope.totalClaims
        = 500000000000000000 ∧
      demoRedEnvelope.fee 500000000000000000 = 12500000000000000 ∧
      demoRedEnvelope.netPot 500000000000000000 = 487500000000000000 := by
  decide

/-- C8: the displayed fee is the quotient of `grossPot × 250` by 10000 rounded
down, the displayed net pot is `grossPot − fee`, and fee and net pot add up to
the gross pot exactly.  This holds for every integer gross pot, the
non-negative ones included. -/
theorem demo_fee_is_floor (grossPot : Int) :
    demoRedEnvelope.fee grossPot = ⌊((grossPot : ℚ) * 250) / 10000⌋ ∧
      demoRedEnvelope.netPot grossPot = grossPot - demoRedEnvelope.fee grossPot ∧
      demoRedEnvelope.fee grossPot + demoRedEnvelope.netPot grossPot = grossPot := by
  refine ⟨?_, rfl, ?_⟩
  · have h := Rat.floor_intCast_div_natCast (grossPot * 250) 10000
    simp only [demoRedEnvelope.fee]
    push_cast at h
    exact h.symm
  · simp only [demoRedEnvelope.netPot]
    ring

/-! ### The expiry computed by `CreateEnvelope` -/

theorem tmod_billion_bounds (d : Int) :
    -1000000000 < Int.tmod d 1000000000 ∧ Int.tmod d 1000000000 < 1000000000 := by
  have hup : Int.tmod d 1000000000 < 1000000000 := Int.tmod_lt_of_pos d (by norm_num)
  refine ⟨?_, hup⟩
  by_cases hd : 0 ≤ d
  · have := Int.tmod_nonneg 1000000000 hd
    omega
  · have h1 : Int.tmod (-d) 1000000000 < 1000000000 := Int.tmod_lt_of_pos (-d) (by norm_num)
    have h2 := Int.tmod_def (-d) 1000000000
    rw [Int.neg_tdiv] at h2
    have h3 := Int.tmod_def d 1000000000
    omega

/-- `Time.Add` moves the instant by exactly `d` nanoseconds and keeps the
nanosecond field normalised. -/
theorem Time.add_spec (t : Time) (d : Duration) (ht : t.Valid) :
    (t.Add d).unixNano = t.unixNano + d ∧ (t.Add d).Valid := by
  obtain ⟨hlo, hhi⟩ := tmod_billion_bounds d
  have hdm := Int.tdiv_add_tmod d 1000000000
  obtain ⟨h0, h1⟩ := ht
  unfold Time.Add
  simp only [ge_iff_le]
  split
  · simp only [Time.unixNano, Time.Valid]
    omega
  · split
    · simp only [Time.unixNano, Time.Valid]
      omega
    · simp only [Time.unixNano, Time.Valid]
      omega

/-- The seconds of `t.Add d` are the unix timestamp of the instant `t + d`. -/
theorem Time.add_unix (t : Time) (d : Duration) (ht : t.Valid) :
    (t.Add d).Unix = Spec.expiryTimestamp t d := by
  obtain ⟨hn, hv0, hv1⟩ := Time.add_spec t d ht
  simp only [Time.unixNano] at hn
  simp only [Time.Unix, Spec.expiryTimestamp, Time.unixNano]
  omega

theorem toUint64_val (z : Int) : ((toUint64 z).val : Int) = z % 2 ^ 64 := by
  have h1 : (0 : Int) ≤ z % 2 ^ 64 := Int.emod_nonneg _ (by norm_num)
  simp only [toUint64]
  exact Int.toNat_of_nonneg h1

/-- C9 (as the code behaves): for every normalised clock reading `t` taken at
call time and every `expiryDuration` `d`, the fifth argument of the
`createEnvelope` call is the unix timestamp of the instant `t + d` (whole
seconds since the epoch, rounded down) reduced modulo `2 ^ 64` by the
conversion to `uint64`.  It is that timestamp itself whenever `t + d` is not
before the epoch (and below `2 ^ 64` seconds); in particular for a
whole-second `t` at or after the epoch and a whole-second `d ≥ 0` it is
`unix(t) + d` in seconds. -/
theorem createEnvelope_expiry_argument (s : RedEnvelopeService) (env : Env)
    (kind : Uint8) (token : Address) (totalClaims : Uint32) (amount : Int)
    (expiryDuration : Duration) (roomIdHash : Bytes32) (recipient : Address)
    (c : TransactCall) (hnow : env.Now.Valid)
    (hc : c ∈ submitted (s.CreateEnvelope env kind token totalClaims amount expiryDuration
      roomIdHash recipient).trace) :
    ∃ e : Uint64, c.args[4]? = some (.uint64 e) ∧
      (e.val : Int) = Spec.expiryTimestamp env.Now expiryDuration % 2 ^ 64 ∧
      (0 ≤ Spec.expiryTimestamp env.Now expiryDuration →
        Spec.expiryTimestamp env.Now expiryDuration < 2 ^ 64 →
        (e.val : Int) = Spec.expiryTimestamp env.Now expiryDuration) ∧
      (∀ k : Int, env.Now.nsec = 0 → expiryDuration = k * 1000000000 →
        0 ≤ env.Now.Unix → 0 ≤ k → env.Now.Unix + k < 2 ^ 64 →
        (e.val : Int) = env.Now.Unix + k) := by
  obtain ⟨nonce, gasPrice, _, _, rfl⟩ :=
    mem_submitted_createEnvelope s env kind token totalClaims amount expiryDuration
      roomIdHash recipient c hc
  have hval : ((CreateEnvelope.expiry env.Now expiryDuration).val : Int) =
      Spec.expiryTimestamp env.Now expiryDuration % 2 ^ 64 := by
    rw [CreateEnvelope.expiry, toUint64_val, Time.add_unix _ _ hnow]
  refine ⟨CreateEnvelope.expiry env.Now expiryDuration, rfl, hval, ?_, ?_⟩
  · intro h0 h1
    rw [hval]
    exact Int.emod_eq_of_lt h0 h1
  · intro k hns hd hsec hk hlt
    rw [hval]
    have hts : Spec.expiryTimestamp env.Now expiryDuration = env.Now.Unix + k := by
      simp only [Spec.expiryTimestamp, Time.unixNano, Time.Unix, hns, hd]
      omega
    rw [hts]
    exact Int.emod_eq_of_lt (by omega) hlt

/-- C9 on the sample node: the clock reads 1793750400 s and the duration is one
hour, so the expiry argument is 1793754000. -/
theorem createEnvelope_expiry_argument_witness :
    ∃ c, c ∈ submitted (sampleService.CreateEnvelope sampleEnv GROUP_FIXED 0 5 100
        3600000000000 0 0).trace ∧
      ∃ e : Uint64, c.args[4]? = some (.uint64 e) ∧ (e.val : Int) = 1793750400 + 3600 := by
  refine ⟨_, List.Mem.head _, ?_⟩
  obtain ⟨e, harg, _, _, hk⟩ := createEnvelope_expiry_argument sampleService sampleEnv
    GROUP_FIXED 0 5 100 3600000000000 0 0 _ (by decide) (List.Mem.head _)
  exact ⟨e, harg, hk 3600 rfl (by decide) (by decide) (by decide) (by decide)⟩

/-- C9 fails as stated: with the clock at 2026-11-04 00:00:00 UTC and the
smallest `time.Duration`, the instant `t + d` has unix timestamp -7429621637,
but the expiry argument passed to the contract is 18446744066279929979. -/
theorem createEnvelope_expiry_before_epoch :
    ∃ c, c ∈ submitted (sampleService.CreateEnvelope sampleEnv GROUP_FIXED 0 5 100
        (-9223372036854775808) 0 0).trace ∧
      c.args[4]? = some (.uint64 18446744066279929979) ∧
      Spec.expiryTimestamp sampleEnv.Now (-9223372036854775808) = -7429621637 :=
  ⟨_, List.Mem.head _, rfl, by decide⟩

/-! ### Gas limits -/

/-- C10: every transaction a mutating operation submits carries a fixed gas
limit, whatever the arguments and the node's answers: 500000 for
`CreateEnvelope`, 300000 for `ClaimEnvelope`, 300000 for `RefundEnvelope`. -/
theorem gasLimit_fixed (s : RedEnvelopeService) (env : Env) :
    (∀ (kind : Uint8) (token : Address) (totalClaims : Uint32) (amount : Int)
        (expiryDuration : Duration) (roomIdHash : Bytes32) (recipient : Address)
        (c : TransactCall),
        c ∈ submitted (s.CreateEnvelope env kind token totalClaims amount expiryDuration
          roomIdHash recipient).trace → c.opts.GasLimit = 500000) ∧
      (∀ (envelopeId : Int) (c : TransactCall),
        c ∈ submitted (s.ClaimEnvelope env envelopeId).trace → c.opts.GasLimit = 300000) ∧
      (∀ (envelopeId : Int) (c : TransactCall),
        c ∈ submitted (s.RefundEnvelope env envelopeId).trace → c.opts.GasLimit = 300000) := by
  refine ⟨?_, ?_, ?_⟩
  · intro kind token totalClaims amount expiryDuration roomIdHash recipient c hc
    obtain ⟨nonce, gasPrice, _, _, rfl⟩ :=
      mem_submitted_createEnvelope s env kind token totalClaims amount expiryDuration
        roomIdHash recipient c hc
    rfl
  · intro envelopeId c hc
    obtain ⟨nonce, gasPrice, _, _, rfl⟩ := mem_submitted_claimEnvelope s env envelopeId c hc
    rfl
  · intro envelopeId c hc
    obtain ⟨nonce, gasPrice, _, _, rfl⟩ := mem_submitted_refundEnvelope s env envelopeId c hc
    rfl

/-- C10 on the sample node: each of the three operations submits a transaction,
and it carries the stated gas limit. -/
theorem gasLimit_fixed_witness :
    (∃ c, c ∈ submitted (sampleService.CreateEnvelope sampleEnv GROUP_FIXED 0 5 100
        3600000000000 0 0).trace ∧ c.opts.GasLimit = 500000) ∧
      (∃ c, c ∈ submitted (sampleService.ClaimEnvelope sampleEnv 3).trace ∧
        c.opts.GasLimit = 300000) ∧
      (∃ c, c ∈ submitted (sampleService.RefundEnvelope sampleEnv 3).trace ∧
        c.opts.GasLimit = 300000) :=
  ⟨⟨_, List.Mem.head _, (gasLimit_fixed sampleService sampleEnv).1 GROUP_FIXED 0 5 100
      3600000000000 0 0 _ (List.Mem.head _)⟩,
    ⟨_, List.Mem.head _, (gasLimit_fixed sampleService sampleEnv).2.1 3 _ (List.Mem.head _)⟩,
    ⟨_, List.Mem.head _, (gasLimit_fixed sampleService sampleEnv).2.2 3 _ (List.Mem.head _)⟩⟩

/-! ### `ClaimEnvelope` and `RefundEnvelope` -/

/-- C11: every transaction `ClaimEnvelope` submits attaches value 0 and calls
the contract method `claimEnvelope` with `envelopeId` as its only argument;
every transaction `RefundEnvelope` submits attaches value 0 and calls
`refundEnvelope` with `envelopeId` as its only argument. -/
theorem claim_refund_call_shape (s : RedEnvelopeService) (env : Env) (envelopeId : Int) :
    (∀ c, c ∈ submitted (s.ClaimEnvelope env envelopeId).trace →
        c.opts.Value = 0 ∧ c.contract = s.ContractAddress ∧ c.method = "claimEnvelope" ∧
          c.args = [.bigInt envelopeId]) ∧
      (∀ c, c ∈ submitted (s.RefundEnvelope env envelopeId).trace →
        c.opts.Value = 0 ∧ c.contract = s.ContractAddress ∧ c.method = "refundEnvelope" ∧
          c.args = [.bigInt envelopeId]) := by
  constructor
  · intro c hc
    obtain ⟨nonce, gasPrice, _, _, rfl⟩ := mem_submitted_claimEnvelope s env envelopeId c hc
    exact ⟨rfl, rfl, rfl, rfl⟩
  · intro c hc
    obtain ⟨nonce, gasPrice, _, _, rfl⟩ := mem_submitted_refundEnvelope s env envelopeId c hc
    exact ⟨rfl, rfl, rfl, rfl⟩

/-- C11 on the sample node, envelope 3: both operations submit a transaction,
with value 0 and the single argument 3. -/
theorem claim_refund_call_shape_witness :
    (∃ c, c ∈ submitted (sampleService.ClaimEnvelope sampleEnv 3).trace ∧
        c.opts.Value = 0 ∧ c.method = "claimEnvelope" ∧ c.args = [.bigInt 3]) ∧
      (∃ c, c ∈ submitted (sampleService.RefundEnvelope sampleEnv 3).trace ∧
        c.opts.Value = 0 ∧ c.method = "refundEnvelope" ∧ c.args = [.bigInt 3]) := by
  have h := claim_refund_call_shape sampleService sampleEnv 3
  refine ⟨⟨_, List.Mem.head _, ?_⟩, ⟨_, List.Mem.head _, ?_⟩⟩
  · have h1 := h.1 _ (List.Mem.head _)
    exact ⟨h1.1, h1.2.2.1, h1.2.2.2⟩
  · have h2 := h.2 _ (List.Mem.head _)
    exact ⟨h2.1, h2.2.2.1, h2.2.2.2⟩

/-- C12: `ClaimEnvelope` and `RefundEnvelope` make no client-side eligibility
check.  Each returns a transaction handle exactly when the nonce fetch, the
gas-price fetch, the transactor creation and the submission all succeed; each
issues no read-only contract call; and two worlds that give the same four
answers (whatever their read calls say about the envelope, whatever the
clock) give the same execution. -/
theorem claim_refund_no_eligibility_check (s : RedEnvelopeService) (env : Env)
    (envelopeId : Int) :
    ((∃ tx, (s.ClaimEnvelope env envelopeId).result = .ok tx) ↔
        ∃ nonce gasPrice u tx, env.PendingNonceAt s.Address = .ok nonce ∧
          env.SuggestGasPrice = .ok gasPrice ∧
          env.NewKeyedTransactorWithChainID s.PrivateKey s.ChainID = .ok u ∧
          env.Transact ⟨s.ContractAddress, ⟨toInt64 nonce.val, 0, gasPrice, 300000⟩,
            "claimEnvelope", [.bigInt envelopeId]⟩ = .ok tx) ∧
      ((∃ tx, (s.RefundEnvelope env envelopeId).result = .ok tx) ↔
        ∃ nonce gasPrice u tx, env.PendingNonceAt s.Address = .ok nonce ∧
          env.SuggestGasPrice = .ok gasPrice ∧
          env.NewKeyedTransactorWithChainID s.PrivateKey s.ChainID = .ok u ∧
          env.Transact ⟨s.ContractAddress, ⟨toInt64 nonce.val, 0, gasPrice, 300000⟩,
            "refundEnvelope", [.bigInt envelopeId]⟩ = .ok tx) ∧
      readCalls (s.ClaimEnvelope env envelopeId).trace = [] ∧
      readCalls (s.RefundEnvelope env envelopeId).trace = [] ∧
      (∀ env2 : Env, env2.PendingNonceAt s.Address = env.PendingNonceAt s.Address →
        env2.SuggestGasPrice = env.SuggestGasPrice →
        env2.NewKeyedTransactorWithChainID s.PrivateKey s.ChainID =
          env.NewKeyedTransactorWithChainID s.PrivateKey s.ChainID →
        (∀ c, env2.Transact c = env.Transact c) →
        s.ClaimEnvelope env2 envelopeId = s.ClaimEnvelope env envelopeId ∧
          s.RefundEnvelope env2 envelopeId = s.RefundEnvelope env envelopeId) := by
  refine ⟨?_, ?_, ?_, ?_, ?_⟩
  · cases hn : env.PendingNonceAt s.Address with
    | error e => simp [RedEnvelopeService.ClaimEnvelope, hn]
    | ok nonce =>
      cases hg : env.SuggestGasPrice with
      | error e => simp [RedEnvelopeService.ClaimEnvelope, hn, hg]
      | ok gasPrice =>
        cases ht : env.NewKeyedTransactorWithChainID s.PrivateKey s.ChainID with
        | error e => simp [RedEnvelopeService.ClaimEnvelope, hn, hg, ht]
        | ok u =>
          cases hx : env.Transact ⟨s.ContractAddress, ⟨toInt64 nonce.val, 0, gasPrice, 300000⟩,
              "claimEnvelope", [.bigInt envelopeId]⟩ with
          | error e => simp [RedEnvelopeService.ClaimEnvelope, hn, hg, ht, hx]
          | ok tx => simp [RedEnvelopeService.ClaimEnvelope, hn, hg, ht, hx]
  · cases hn : env.PendingNonceAt s.Address with
    | error e => simp [RedEnvelopeService.RefundEnvelope, hn]
    | ok nonce =>
      cases hg : env.SuggestGasPrice with
      | error e => simp [RedEnvelopeService.RefundEnvelope, hn, hg]
      | ok gasPrice =>
        cases ht : env.NewKeyedTransactorWithChainID s.PrivateKey s.ChainID with
        | error e => simp [RedEnvelopeService.RefundEnvelope, hn, hg, ht]
        | ok u =>
          cases hx : env.Transact ⟨s.ContractAddress, ⟨toInt64 nonce.val, 0, gasPrice, 300000⟩,
              "refundEnvelope", [.bigInt envelopeId]⟩ with
          | error e => simp [RedEnvelopeService.RefundEnvelope, hn, hg, ht, hx]
          | ok tx => simp [RedEnvelopeService.RefundEnvelope, hn, hg, ht, hx]
  · unfold RedEnvelopeService.ClaimEnvelope
    repeat' split
    all_goals first | rfl | (dsimp only; split <;> rfl)
  · unfold RedEnvelopeService.RefundEnvelope
    repeat' split
    all_goals first | rfl | (dsimp only; split <;> rfl)
  · intro env2 h1 h2 h3 h4
    simp only [RedEnvelopeService.ClaimEnvelope, RedEnvelopeService.RefundEnvelope, h1, h2, h3,
      h4, and_self]

/-- C12 on two nodes that differ only in what their read calls return (an
empty list against an eleven-field envelope tuple): claiming and refunding
envelope 3 run identically, and the claim returns the handle. -/
theorem claim_refund_no_eligibility_check_witness :
    sampleService.ClaimEnvelope tupleEnv 3 = sampleService.ClaimEnvelope sampleEnv 3 ∧
      sampleService.RefundEnvelope tupleEnv 3 = sampleService.RefundEnvelope sampleEnv 3 ∧
      ∃ tx, (sampleService.ClaimEnvelope sampleEnv 3).result = .ok tx := by
  have h := claim_refund_no_eligibility_check sampleService sampleEnv 3
  have h5 := h.2.2.2.2 tupleEnv rfl rfl rfl (fun _ => rfl)
  exact ⟨h5.1, h5.2, h.1.2 ⟨7, 1000000000, (), ⟨1⟩, rfl, rfl, rfl, rfl⟩⟩

/-! ### Failures before and at submission -/

/-- C13: for each mutating operation (`CreateEnvelope`, `ClaimEnvelope`,
`RefundEnvelope`): when the pending-nonce query fails with message `m` the
operation issues that query only (no gas-price query, no submission) and
returns the nonce error `failed to get nonce: m`; when the nonce query succeeds
and the gas-price query fails with `m` it issues those two queries only and
returns the gas-price error `failed to get gas price: m`; and a transaction
handle is returned only when nonce fetch, gas-price fetch, transactor creation
and the single submission all succeeded, so never in a failing case. -/
theorem prefetch_failure_returns_error (s : RedEnvelopeService) (env : Env)
    (kind : Uint8) (token : Address) (totalClaims : Uint32) (amount : Int)
    (expiryDuration : Duration) (roomIdHash : Bytes32) (recipient : Address)
    (envelopeId : Int) (r : Run Transaction)
    (hr : r ∈ [s.CreateEnvelope env kind token totalClaims amount expiryDuration roomIdHash
      recipient, s.ClaimEnvelope env envelopeId, s.RefundEnvelope env envelopeId]) :
    (∀ m, env.PendingNonceAt s.Address = .error m →
        r.trace = [.pendingNonceAt s.Address] ∧
          r.result = .error ("failed to get nonce: " ++ m)) ∧
      (∀ nonce m, env.PendingNonceAt s.Address = .ok nonce → env.SuggestGasPrice = .error m →
        r.trace = [.pendingNonceAt s.Address, .suggestGasPrice] ∧
          r.result = .error ("failed to get gas price: " ++ m)) ∧
      (∀ tx, r.result = .ok tx →
        ∃ nonce gasPrice u c, env.PendingNonceAt s.Address = .ok nonce ∧
          env.SuggestGasPrice = .ok gasPrice ∧
          env.NewKeyedTransactorWithChainID s.PrivateKey s.ChainID = .ok u ∧
          submitted r.trace = [c] ∧ env.Transact c = .ok tx) := by
  simp only [List.mem_cons, List.mem_singleton, List.not_mem_nil, or_false] at hr
  rcases hr with rfl | rfl | rfl
  · refine ⟨?_, ?_, ?_⟩
    · intro m h
      simp [RedEnvelopeService.CreateEnvelope, h]
    · intro nonce m h1 h2
      simp [RedEnvelopeService.CreateEnvelope, h1, h2]
    · intro tx htx
      cases hn : env.PendingNonceAt s.Address with
      | error e => simp [RedEnvelopeService.CreateEnvelope, hn] at htx
      | ok nonce =>
        cases hg : env.SuggestGasPrice with
        | error e => simp [RedEnvelopeService.CreateEnvelope, hn, hg] at htx
        | ok gasPrice =>
          cases ht : env.NewKeyedTransactorWithChainID s.PrivateKey s.ChainID with
          | error e => simp [RedEnvelopeService.CreateEnvelope, hn, hg, ht] at htx
          | ok u =>
            cases hx : env.Transact ⟨s.ContractAddress,
                ⟨toInt64 nonce.val, CreateEnvelope.value kind token totalClaims amount, gasPrice,
                  500000⟩, "createEnvelope",
                [.uint8 kind, .address token, .uint32 totalClaims, .bigInt amount,
                  .uint64 (CreateEnvelope.expiry env.Now expiryDuration),
                  .bytes32 roomIdHash, .address recipient]⟩ with
            | error e => simp [RedEnvelopeService.CreateEnvelope, hn, hg, ht, hx] at htx
            | ok tx2 =>
              simp only [RedEnvelopeService.CreateEnvelope, hn, hg, ht, hx, Outcome.ok.injEq] at htx
              subst htx
              refine ⟨nonce, gasPrice, u, _, rfl, rfl, rfl, ?_, hx⟩
              simp [RedEnvelopeService.CreateEnvelope, hn, hg, ht, hx, submitted]
  · refine ⟨?_, ?_, ?_⟩
    · intro m h
      simp [RedEnvelopeService.ClaimEnvelope, h]
    · intro nonce m h1 h2
      simp [RedEnvelopeService.ClaimEnvelope, h1, h2]
    · intro tx htx
      cases hn : env.PendingNonceAt s.Address with
      | error e => simp [RedEnvelopeService.ClaimEnvelope, hn] at htx
      | ok nonce =>
        cases hg : env.SuggestGasPrice with
        | error e => simp [RedEnvelopeService.ClaimEnvelope, hn, hg] at htx
        | ok gasPrice =>
          cases ht : env.NewKeyedTransactorWithChainID s.PrivateKey s.ChainID with
          | error e => simp [RedEnvelopeService.ClaimEnvelope, hn, hg, ht] at htx
          | ok u =>
            cases hx : env.Transact ⟨s.ContractAddress, ⟨toInt64 nonce.val, 0, gasPrice, 300000⟩,
                "claimEnvelope", [.bigInt envelopeId]⟩ with
            | error e => simp [RedEnvelopeService.ClaimEnvelope, hn, hg, ht, hx] at htx
            | ok tx2 =>
              simp only [RedEnvelopeService.ClaimEnvelope, hn, hg, ht, hx, Outcome.ok.injEq] at htx
              subst htx
              refine ⟨nonce, gasPrice, u, _, rfl, rfl, rfl, ?_, hx⟩
              simp [RedEnvelopeService.ClaimEnvelope, hn, hg, ht, hx, submitted]
  · refine ⟨?_, ?_, ?_⟩
    · intro m h
      simp [RedEnvelopeService.RefundEnvelope, h]
    · intro nonce m h1 h2
      simp [RedEnvelopeService.RefundEnvelope, h1, h2]
    · intro tx htx
      cases hn : env.PendingNonceAt s.Address with
      | error e => simp [RedEnvelopeService.RefundEnvelope, hn] at htx
      | ok nonce =>
        cases hg : env.SuggestGasPrice with
        | error e => simp [RedEnvelopeService.RefundEnvelope, hn, hg] at htx
        | ok gasPrice =>
          cases ht : env.NewKeyedTransactorWithChainID s.PrivateKey s.ChainID with
          | error e => simp [RedEnvelopeService.RefundEnvelope, hn, hg, ht] at htx
          | ok u =>
            cases hx : env.Transact ⟨s.ContractAddress, ⟨toInt64 nonce.val, 0, gasPrice, 300000⟩,
                "refundEnvelope", [.bigInt envelopeId]⟩ with
            | error e => simp [RedEnvelopeService.RefundEnvelope, hn, hg, ht, hx] at htx
            | ok tx2 =>
              simp only [RedEnvelopeService.RefundEnvelope, hn, hg, ht, hx, Outcome.ok.injEq] at htx
              subst htx
              refine ⟨nonce, gasPrice, u, _, rfl, rfl, rfl, ?_, hx⟩
              simp [RedEnvelopeService.RefundEnvelope, hn, hg, ht, hx, submitted]

/-- C13 on a node whose nonce query fails: `ClaimEnvelope` stops after that
query with the nonce error; on a node whose gas-price query fails:
`RefundEnvelope` stops after the two queries with the gas-price error. -/
theorem prefetch_failure_returns_error_witness :
    ((sampleService.ClaimEnvelope nonceFailEnv 3).trace = [.pendingNonceAt 17] ∧
        (sampleService.ClaimEnvelope nonceFailEnv 3).result =
          .error "failed to get nonce: connection refused") ∧
      ((sampleService.RefundEnvelope gasFailEnv 3).trace =
          [.pendingNonceAt 17, .suggestGasPrice] ∧
        (sampleService.RefundEnvelope gasFailEnv 3).result =
          .error "failed to get gas price: connection refused") :=
  ⟨(prefetch_failure_returns_error sampleService nonceFailEnv GROUP_FIXED 0 5 100
      3600000000000 0 0 3 _ (List.Mem.tail _ (List.Mem.head _))).1 "connection refused" rfl,
    (prefetch_failure_returns_error sampleService gasFailEnv GROUP_FIXED 0 5 100
      3600000000000 0 0 3 _ (List.Mem.tail _ (List.Mem.tail _ (List.Mem.head _)))).2.1
      7 "connection refused" rfl rfl⟩

/-- C14: whatever step fails with node or contract message `m`, the operation
returns an error whose message is a fixed prefix followed by `m` unchanged.
For the three mutating operations the prefixes are `failed to get nonce: `,
`failed to get gas price: `, `failed to create transactor: ` and, for a
rejected submission, `failed to create envelope: `, `failed to claim
envelope: `, `failed to refund envelope: `; for the read operations they are
`failed to get envelope: `, `failed to check claim status: ` and `failed to
get next envelope ID: `.  In particular a rejected submission yields an
error, not a transaction handle. -/
theorem errors_keep_node_message (s : RedEnvelopeService) (env : Env)
    (kind : Uint8) (token : Address) (totalClaims : Uint32) (amount : Int)
    (expiryDuration : Duration) (roomIdHash : Bytes32) (recipient : Address)
    (envelopeId : Int) (user : Address) (m : String) :
    (∀ r, r ∈ [s.CreateEnvelope env kind token totalClaims amount expiryDuration roomIdHash
          recipient, s.ClaimEnvelope env envelopeId, s.RefundEnvelope env envelopeId] →
        (env.PendingNonceAt s.Address = .error m →
          r.result = .error ("failed to get nonce: " ++ m)) ∧
        (∀ nonce, env.PendingNonceAt s.Address = .ok nonce → env.SuggestGasPrice = .error m →
          r.result = .error ("failed to get gas price: " ++ m)) ∧
        (∀ nonce gasPrice, env.PendingNonceAt s.Address = .ok nonce →
          env.SuggestGasPrice = .ok gasPrice →
          env.NewKeyedTransactorWithChainID s.PrivateKey s.ChainID = .error m →
          r.result = .error ("failed to create transactor: " ++ m))) ∧
      (∀ c, c ∈ submitted (s.CreateEnvelope env kind token totalClaims amount expiryDuration
          roomIdHash recipient).trace → env.Transact c = .error m →
        (s.CreateEnvelope env kind token totalClaims amount expiryDuration roomIdHash
          recipient).result = .error ("failed to create envelope: " ++ m)) ∧
      (∀ c, c ∈ submitted (s.ClaimEnvelope env envelopeId).trace → env.Transact c = .error m →
        (s.ClaimEnvelope env envelopeId).result = .error ("failed to claim envelope: " ++ m)) ∧
      (∀ c, c ∈ submitted (s.RefundEnvelope env envelopeId).trace → env.Transact c = .error m →
        (s.RefundEnvelope env envelopeId).result =
          .error ("failed to refund envelope: " ++ m)) ∧
      (env.Call ⟨s.ContractAddress, "getEnvelope", [.bigInt envelopeId]⟩ = .error m →
        (s.GetEnvelope env envelopeId).result = .error ("failed to get envelope: " ++ m)) ∧
      (env.Call ⟨s.ContractAddress, "hasUserClaimed", [.bigInt envelopeId, .address user]⟩ =
          .error m →
        (s.HasClaimed env envelopeId user).result =
          .error ("failed to check claim status: " ++ m)) ∧
      (env.Call ⟨s.ContractAddress, "nextEnvelopeId", []⟩ = .error m →
        (s.GetNextEnvelopeId env).result = .error ("failed to get next envelope ID: " ++ m)) := by
  refine ⟨?_, ?_, ?_, ?_, ?_, ?_, ?_⟩
  · intro r hr
    simp only [List.mem_cons, List.mem_singleton, List.not_mem_nil, or_false] at hr
    rcases hr with rfl | rfl | rfl
    · refine ⟨fun h => ?_, fun nonce h1 h2 => ?_, fun nonce gasPrice h1 h2 h3 => ?_⟩
      · simp [RedEnvelopeService.CreateEnvelope, h]
      · simp [RedEnvelopeService.CreateEnvelope, h1, h2]
      · simp [RedEnvelopeService.CreateEnvelope, h1, h2, h3]
    · refine ⟨fun h => ?_, fun nonce h1 h2 => ?_, fun nonce gasPrice h1 h2 h3 => ?_⟩
      · simp [RedEnvelopeService.ClaimEnvelope, h]
      · simp [RedEnvelopeService.ClaimEnvelope, h1, h2]
      · simp [RedEnvelopeService.ClaimEnvelope, h1, h2, h3]
    · refine ⟨fun h => ?_, fun nonce h1 h2 => ?_, fun nonce gasPrice h1 h2 h3 => ?_⟩
      · simp [RedEnvelopeService.RefundEnvelope, h]
      · simp [RedEnvelopeService.RefundEnvelope, h1, h2]
      · simp [RedEnvelopeService.RefundEnvelope, h1, h2, h3]
  · intro c hc hx
    obtain ⟨nonce, gasPrice, hn, hg, rfl⟩ := mem_submitted_createEnvelope s env kind token totalClaims amount expiryDuration
      roomIdHash recipient _ hc
    cases ht : env.NewKeyedTransactorWithChainID s.PrivateKey s.ChainID with
    | error e => simp [RedEnvelopeService.CreateEnvelope, hn, hg, ht, submitted] at hc
    | ok u => simp [RedEnvelopeService.CreateEnvelope, hn, hg, ht, hx]
  · intro c hc hx
    obtain ⟨nonce, gasPrice, hn, hg, rfl⟩ := mem_submitted_claimEnvelope s env envelopeId _ hc
    cases ht : env.NewKeyedTransactorWithChainID s.PrivateKey s.ChainID with
    | error e => simp [RedEnvelopeService.ClaimEnvelope, hn, hg, ht, submitted] at hc
    | ok u => simp [RedEnvelopeService.ClaimEnvelope, hn, hg, ht, hx]
  · intro c hc hx
    obtain ⟨nonce, gasPrice, hn, hg, rfl⟩ := mem_submitted_refundEnvelope s env envelopeId _ hc
    cases ht : env.NewKeyedTransactorWithChainID s.PrivateKey s.ChainID with
    | error e => simp [RedEnvelopeService.RefundEnvelope, hn, hg, ht, submitted] at hc
    | ok u => simp [RedEnvelopeService.RefundEnvelope, hn, hg, ht, hx]
  · intro h
    simp [RedEnvelopeService.GetEnvelope, h]
  · intro h
    simp [RedEnvelopeService.HasClaimed, h]
  · intro h
    simp [RedEnvelopeService.GetNextEnvelopeId, h]

/-- C14 on a node that rejects every submission with `execution reverted`: the
claim and the refund of envelope 3 return the prefixed message, no handle. -/
theorem errors_keep_node_message_witness :
    (sampleService.ClaimEnvelope rejectEnv 3).result =
        .error "failed to claim envelope: execution reverted" ∧
      (sampleService.RefundEnvelope rejectEnv 3).result =
        .error "failed to refund envelope: execution reverted" ∧
      (sampleService.GetEnvelope rejectEnv 3).result =
        .error "failed to get envelope: execution reverted" := by
  have h := errors_keep_node_message sampleService rejectEnv GROUP_FIXED 0 5 100
    3600000000000 0 0 3 17 "execution reverted"
  exact ⟨h.2.2.1 _ (List.Mem.head _) rfl, h.2.2.2.1 _ (List.Mem.head _) rfl,
    h.2.2.2.2.1 rfl⟩

/-! ### Construction -/

/-- C15 (as the code behaves): `NewRedEnvelopeService` returns a service exactly
when dialling the node, parsing the private key, fetching the chain ID and
parsing the ABI all succeed; otherwise it returns the error of the first of
these steps that fails, in this order, with the prefixes `failed to connect to
ethereum node: ` (connection), `failed to load private key: ` (key), `failed
to get chain ID: ` (chain query), `failed to parse ABI: ` (interface parse).
On success the service holds the address derived from the key and the chain
ID the node returned.  A node that does not answer makes dialling fail only
over a transport that connects while dialling, and then the connection error
is returned; over `http` dialling succeeds without the node, and the
unreachable node is reported as the chain-query error, or the key error
comes first when the key is malformed. -/
theorem newService_outcome (env : SetupEnv) (w : Surroundings)
    (rpcURL contractAddress privateKeyHex : String) :
    ((∃ svc, NewRedEnvelopeService env rpcURL contractAddress privateKeyHex = .ok svc) ↔
        (∃ u, env.Dial rpcURL = .ok u) ∧ (∃ k, env.HexToECDSA privateKeyHex = .ok k) ∧
          (∃ id, env.ChainID rpcURL = .ok id) ∧ (∃ u, env.ParseABI = .ok u)) ∧
      (∀ m, env.Dial rpcURL = .error m →
        NewRedEnvelopeService env rpcURL contractAddress privateKeyHex =
          .error ("failed to connect to ethereum node: " ++ m)) ∧
      (∀ u m, env.Dial rpcURL = .ok u → env.HexToECDSA privateKeyHex = .error m →
        NewRedEnvelopeService env rpcURL contractAddress privateKeyHex =
          .error ("failed to load private key: " ++ m)) ∧
      (∀ u k m, env.Dial rpcURL = .ok u → env.HexToECDSA privateKeyHex = .ok k →
        env.ChainID rpcURL = .error m →
        NewRedEnvelopeService env rpcURL contractAddress privateKeyHex =
          .error ("failed to get chain ID: " ++ m)) ∧
      (∀ u k id m, env.Dial rpcURL = .ok u → env.HexToECDSA privateKeyHex = .ok k →
        env.ChainID rpcURL = .ok id → env.ParseABI = .error m →
        NewRedEnvelopeService env rpcURL contractAddress privateKeyHex =
          .error ("failed to parse ABI: " ++ m)) ∧
      (∀ u k id v, env.Dial rpcURL = .ok u → env.HexToECDSA privateKeyHex = .ok k →
        env.ChainID rpcURL = .ok id → env.ParseABI = .ok v →
        NewRedEnvelopeService env rpcURL contractAddress privateKeyHex =
          .ok ⟨env.HexToAddress contractAddress, k, env.PubkeyToAddress k, id⟩) ∧
      (w.transport rpcURL = .ok .connecting → w.nodeUp rpcURL = false →
        NewRedEnvelopeService w.setup rpcURL contractAddress privateKeyHex =
          .error ("failed to connect to ethereum node: " ++ w.refusal rpcURL)) ∧
      (w.transport rpcURL = .ok .http → w.nodeUp rpcURL = false →
        (∀ k, w.HexToECDSA privateKeyHex = .ok k →
          NewRedEnvelopeService w.setup rpcURL contractAddress privateKeyHex =
            .error ("failed to get chain ID: " ++ w.refusal rpcURL)) ∧
        (∀ m, w.HexToECDSA privateKeyHex = .error m →
          NewRedEnvelopeService w.setup rpcURL contractAddress privateKeyHex =
            .error ("failed to load private key: " ++ m))) := by
  refine ⟨?_, ?_, ?_, ?_, ?_, ?_, ?_, ?_⟩
  · cases hd : env.Dial rpcURL with
    | error e => simp [NewRedEnvelopeService, hd]
    | ok u =>
      cases hk : env.HexToECDSA privateKeyHex with
      | error e => simp [NewRedEnvelopeService, hd, hk]
      | ok k =>
        cases hc : env.ChainID rpcURL with
        | error e => simp [NewRedEnvelopeService, hd, hk, hc, PrivateKey.Public]
        | ok id =>
          cases ha : env.ParseABI with
          | error e => simp [NewRedEnvelopeService, hd, hk, hc, ha, PrivateKey.Public]
          | ok v => simp [NewRedEnvelopeService, hd, hk, hc, ha, PrivateKey.Public]
  · intro m h
    simp [NewRedEnvelopeService, h]
  · intro u m h1 h2
    simp [NewRedEnvelopeService, h1, h2]
  · intro u k m h1 h2 h3
    simp [NewRedEnvelopeService, h1, h2, h3, PrivateKey.Public]
  · intro u k id m h1 h2 h3 h4
    simp [NewRedEnvelopeService, h1, h2, h3, h4, PrivateKey.Public]
  · intro u k id v h1 h2 h3 h4
    simp [NewRedEnvelopeService, h1, h2, h3, h4, PrivateKey.Public]
  · intro ht hdown
    simp [NewRedEnvelopeService, Surroundings.setup, ht, hdown]
  · intro ht hdown
    constructor
    · intro k hk
      simp [NewRedEnvelopeService, Surroundings.setup, ht, hdown, hk, PrivateKey.Public]
    · intro m hk
      simp [NewRedEnvelopeService, Surroundings.setup, ht, hdown, hk]

/-- C15 on the development node of `main.go`.  With the node up the service
carries the signer's address and chain 31337; with the two-digit key `01` the
key error is returned; with the node down, the websocket URL gives the
connection error and the `http` URL the chain-query error. -/
theorem newService_outcome_witness :
    NewRedEnvelopeService devWorld.setup "http://127.0.0.1:8545"
        "0x5FbDB2315678afecb367f032d93F642f64180aa3"
        "ac0974bec39a17e36ba4a6b4d238ff944bacb478cbed5efcae784d7bf4f2ff80" =
        .ok ⟨0x5FbDB2315678afecb367f032d93F642f64180aa3,
          0xac0974bec39a17e36ba4a6b4d238ff944bacb478cbed5efcae784d7bf4f2ff80,
          0xf39Fd6e51aad88F6F4ce6aB8827279cffFb92266, 31337⟩ ∧
      NewRedEnvelopeService devWorld.setup "http://127.0.0.1:8545"
        "0x5FbDB2315678afecb367f032d93F642f64180aa3" "01" =
        .error "failed to load private key: invalid length, need 256 bits" ∧
      NewRedEnvelopeService downWorld.setup "ws://127.0.0.1:8545"
        "0x5FbDB2315678afecb367f032d93F642f64180aa3"
        "ac0974bec39a17e36ba4a6b4d238ff944bacb478cbed5efcae784d7bf4f2ff80" =
        .error ("failed to connect to ethereum node: " ++
          "dial tcp 127.0.0.1:8545: connect: connection refused") ∧
      NewRedEnvelopeService downWorld.setup "http://127.0.0.1:8545"
        "0x5FbDB2315678afecb367f032d93F642f64180aa3"
        "ac0974bec39a17e36ba4a6b4d238ff944bacb478cbed5efcae784d7bf4f2ff80" =
        .error ("failed to get chain ID: " ++
          downWorld.refusal "http://127.0.0.1:8545") :=
  ⟨(newService_outcome devWorld.setup devWorld "http://127.0.0.1:8545"
      "0x5FbDB2315678afecb367f032d93F642f64180aa3"
      "ac0974bec39a17e36ba4a6b4d238ff944bacb478cbed5efcae784d7bf4f2ff80").2.2.2.2.2.1
      () 0xac0974bec39a17e36ba4a6b4d238ff944bacb478cbed5efcae784d7bf4f2ff80 31337 ()
      rfl rfl rfl rfl,
    (newService_outcome devWorld.setup devWorld "http://127.0.0.1:8545"
      "0x5FbDB2315678afecb367f032d93F642f64180aa3" "01").2.2.1
      () "invalid length, need 256 bits" rfl rfl,
    (newService_outcome downWorld.setup downWorld "ws://127.0.0.1:8545"
      "0x5FbDB2315678afecb367f032d93F642f64180aa3"
      "ac0974bec39a17e36ba4a6b4d238ff944bacb478cbed5efcae784d7bf4f2ff80").2.2.2.2.2.2.1
      rfl rfl,
    ((newService_outcome downWorld.setup downWorld "http://127.0.0.1:8545"
      "0x5FbDB2315678afecb367f032d93F642f64180aa3"
      "ac0974bec39a17e36ba4a6b4d238ff944bacb478cbed5efcae784d7bf4f2ff80").2.2.2.2.2.2.2
      rfl rfl).1
      0xac0974bec39a17e36ba4a6b4d238ff944bacb478cbed5efcae784d7bf4f2ff80 rfl⟩

theorem chainID_error_is_no_connection_error (m : String) :
    "failed to get chain ID: Post \"http://127.0.0.1:8545\": dial tcp 127.0.0.1:8545: connect: connection refused"
      ≠ "failed to connect to ethereum node: " ++ m := by
  intro h
  have h2 := congrArg (fun s : String => s.data.take 11) h
  simp only [String.data_append] at h2
  rw [List.take_append_of_le_length (by decide)] at h2
  exact absurd h2 (by decide)

/-- C15 fails as stated: no node answers at `http://127.0.0.1:8545`, the key is
well-formed, and `NewRedEnvelopeService` returns the chain-query error, not a
connection error. -/
theorem newService_unreachable_http_node :
    downWorld.nodeUp "http://127.0.0.1:8545" = false ∧
      NewRedEnvelopeService downWorld.setup "http://127.0.0.1:8545"
        "0x5FbDB2315678afecb367f032d93F642f64180aa3"
        "ac0974bec39a17e36ba4a6b4d238ff944bacb478cbed5efcae784d7bf4f2ff80" =
        .error "failed to get chain ID: Post \"http://127.0.0.1:8545\": dial tcp 127.0.0.1:8545: connect: connection refused" ∧
      ¬ ∃ m, NewRedEnvelopeService downWorld.setup "http://127.0.0.1:8545"
        "0x5FbDB2315678afecb367f032d93F642f64180aa3"
        "ac0974bec39a17e36ba4a6b4d238ff944bacb478cbed5efcae784d7bf4f2ff80" =
        .error ("failed to connect to ethereum node: " ++ m) := by
  have hres : NewRedEnvelopeService downWorld.setup "http://127.0.0.1:8545"
      "0x5FbDB2315678afecb367f032d93F642f64180aa3"
      "ac0974bec39a17e36ba4a6b4d238ff944bacb478cbed5efcae784d7bf4f2ff80" =
      .error "failed to get chain ID: Post \"http://127.0.0.1:8545\": dial tcp 127.0.0.1:8545: connect: connection refused" := rfl
  refine ⟨rfl, hres, ?_⟩
  rintro ⟨m, hm⟩
  rw [hres] at hm
  exact chainID_error_is_no_connection_error m (by injection hm)

/-! ### The read operations `HasClaimed` and `GetNextEnvelopeId` -/

/-- C16: `HasClaimed` issues exactly one request, the read call `hasUserClaimed`
with arguments `envelopeId, user`, and `GetNextEnvelopeId` exactly one, the
read call `nextEnvelopeId` without arguments; neither submits a transaction.
Each returns an error exactly when that call fails (the call's message behind
the operation's prefix), and when the call decodes to the single boolean,
respectively the single integer, that value is returned unchanged. -/
theorem read_operations_single_call (s : RedEnvelopeService) (env : Env)
    (envelopeId : Int) (user : Address) :
    (s.HasClaimed env envelopeId user).trace =
        [.call ⟨s.ContractAddress, "hasUserClaimed", [.bigInt envelopeId, .address user]⟩] ∧
      (s.GetNextEnvelopeId env).trace = [.call ⟨s.ContractAddress, "nextEnvelopeId", []⟩] ∧
      (∀ msg, (s.HasClaimed env envelopeId user).result = .error msg ↔
        ∃ m, env.Call ⟨s.ContractAddress, "hasUserClaimed",
            [.bigInt envelopeId, .address user]⟩ = .error m ∧
          msg = "failed to check claim status: " ++ m) ∧
      (∀ msg, (s.GetNextEnvelopeId env).result = .error msg ↔
        ∃ m, env.Call ⟨s.ContractAddress, "nextEnvelopeId", []⟩ = .error m ∧
          msg = "failed to get next envelope ID: " ++ m) ∧
      (∀ b, env.Call ⟨s.ContractAddress, "hasUserClaimed",
          [.bigInt envelopeId, .address user]⟩ = .ok [.bool b] →
        (s.HasClaimed env envelopeId user).result = .ok b) ∧
      (∀ z, env.Call ⟨s.ContractAddress, "nextEnvelopeId", []⟩ = .ok [.bigInt z] →
        (s.GetNextEnvelopeId env).result = .ok z) := by
  refine ⟨?_, ?_, ?_, ?_, ?_, ?_⟩
  · unfold RedEnvelopeService.HasClaimed
    dsimp only
    repeat' split
    all_goals rfl
  · unfold RedEnvelopeService.GetNextEnvelopeId
    dsimp only
    repeat' split
    all_goals rfl
  · intro msg
    cases hc : env.Call ⟨s.ContractAddress, "hasUserClaimed",
        [.bigInt envelopeId, .address user]⟩ with
    | error e =>
      simp only [RedEnvelopeService.HasClaimed, hc]
      constructor
      · intro h
        cases h
        exact ⟨e, rfl, rfl⟩
      · rintro ⟨m, hm, rfl⟩
        cases hm
        rfl
    | ok result =>
      simp only [RedEnvelopeService.HasClaimed, hc]
      constructor
      · intro h
        split at h <;> cases h
      · rintro ⟨m, hm, _⟩
        cases hm
  · intro msg
    cases hc : env.Call ⟨s.ContractAddress, "nextEnvelopeId", []⟩ with
    | error e =>
      simp only [RedEnvelopeService.GetNextEnvelopeId, hc]
      constructor
      · intro h
        cases h
        exact ⟨e, rfl, rfl⟩
      · rintro ⟨m, hm, rfl⟩
        cases hm
        rfl
    | ok result =>
      simp only [RedEnvelopeService.GetNextEnvelopeId, hc]
      constructor
      · intro h
        split at h <;> cases h
      · rintro ⟨m, hm, _⟩
        cases hm
  · intro b h
    simp only [RedEnvelopeService.HasClaimed, h]
    rfl
  · intro z h
    simp only [RedEnvelopeService.GetNextEnvelopeId, h]
    rfl

/-- C16 on a node answering `true` to `hasUserClaimed` and 42 to
`nextEnvelopeId`, and on a node whose read calls fail. -/
theorem read_operations_single_call_witness :
    (sampleService.HasClaimed readEnv 3 17).result = .ok true ∧
      (sampleService.GetNextEnvelopeId readEnv).result = .ok 42 ∧
      (sampleService.HasClaimed rejectEnv 3 17).result =
        .error "failed to check claim status: execution reverted" := by
  have h := read_operations_single_call sampleService readEnv 3 17
  have h2 := read_operations_single_call sampleService rejectEnv 3 17
  exact ⟨h.2.2.2.2.1 true rfl, h.2.2.2.2.2 42 rfl,
    (h2.2.2.1 _).2 ⟨"execution reverted", rfl, rfl⟩⟩

/-! ### Confirmation polling -/

theorem waitLoop_trace_length (receiptAt : Nat → Except String Receipt) (txHash : Bytes32)
    (n i : Nat) : (waitForTransactionReceipt.loop receiptAt txHash n i).trace.length ≤ n := by
  induction n generalizing i with
  | zero => simp [waitForTransactionReceipt.loop]
  | succ n ih =>
    unfold waitForTransactionReceipt.loop
    split
    · simp
    · have := ih (i + 1)
      simp only [List.length_cons]
      omega

theorem waitLoop_first_success (receiptAt : Nat → Except String Receipt) (txHash : Bytes32)
    (receipt : Receipt) (n i k : Nat) (hk : k < n)
    (hfail : ∀ j, j < k → ∃ e, receiptAt (i + j) = .error e)
    (hok : receiptAt (i + k) = .ok receipt) :
    waitForTransactionReceipt.loop receiptAt txHash n i =
      ⟨List.replicate (k + 1) (.transactionReceipt txHash), .ok receipt⟩ := by
  induction n generalizing i k with
  | zero => omega
  | succ n ih =>
    unfold waitForTransactionReceipt.loop
    cases k with
    | zero =>
      simp only [Nat.add_zero] at hok
      simp [hok]
    | succ k =>
      obtain ⟨e, he⟩ := hfail 0 (by omega)
      simp only [Nat.add_zero] at he
      have hrec := ih (i + 1) k (by omega)
        (fun j hj => by
          have := hfail (j + 1) (by omega)
          rwa [show i + 1 + j = i + (j + 1) by omega])
        (by rwa [show i + 1 + k = i + (k + 1) by omega])
      simp only [he, hrec]
      rfl

theorem waitLoop_all_fail (receiptAt : Nat → Except String Receipt) (txHash : Bytes32)
    (n i : Nat) (hfail : ∀ j, j < n → ∃ e, receiptAt (i + j) = .error e) :
    waitForTransactionReceipt.loop receiptAt txHash n i =
      ⟨List.replicate n (.transactionReceipt txHash),
        .error "transaction not mined after 30 attempts"⟩ := by
  induction n generalizing i with
  | zero => rfl
  | succ n ih =>
    unfold waitForTransactionReceipt.loop
    obtain ⟨e, he⟩ := hfail 0 (by omega)
    simp only [Nat.add_zero] at he
    have hrec := ih (i + 1) (fun j hj => by
      have := hfail (j + 1) (by omega)
      rwa [show i + 1 + j = i + (j + 1) by omega])
    simp only [he, hrec]
    rfl

/-- C19: for every sequence of receipt-query outcomes `waitForTransactionReceipt`
returns (it is a total function) after at most 30 queries.  When the `k`-th
query (`1 ≤ k ≤ 30`) is the first to succeed, it returns that query's receipt
and no error after exactly `k` queries; when the first 30 queries all fail, it
returns the error `transaction not mined after 30 attempts` after exactly 30
queries. -/
theorem waitForTransactionReceipt_bounded (receiptAt : Nat → Except String Receipt)
    (txHash : Bytes32) :
    (waitForTransactionReceipt receiptAt txHash).trace.length ≤ 30 ∧
      (∀ k receipt, 1 ≤ k → k ≤ 30 → (∀ j, j < k - 1 → ∃ e, receiptAt j = .error e) →
        receiptAt (k - 1) = .ok receipt →
        (waitForTransactionReceipt receiptAt txHash).result = .ok receipt ∧
          (waitForTransactionReceipt receiptAt txHash).trace =
            List.replicate k (.transactionReceipt txHash)) ∧
      ((∀ j, j < 30 → ∃ e, receiptAt j = .error e) →
        (waitForTransactionReceipt receiptAt txHash).result =
            .error "transaction not mined after 30 attempts" ∧
          (waitForTransactionReceipt receiptAt txHash).trace =
            List.replicate 30 (.transactionReceipt txHash)) := by
  refine ⟨waitLoop_trace_length receiptAt txHash 30 0, ?_, ?_⟩
  · intro k receipt hk1 hk30 hfail hok
    have h := waitLoop_first_success receiptAt txHash receipt 30 0 (k - 1) (by omega)
      (fun j hj => by simpa using hfail j hj) (by simpa using hok)
    rw [show k - 1 + 1 = k by omega] at h
    simp only [waitForTransactionReceipt, h, and_self]
  · intro hfail
    have h := waitLoop_all_fail receiptAt txHash 30 0 (fun j hj => by simpa using hfail j hj)
    simp only [waitForTransactionReceipt, h, and_self]

/-- C19 on two query sequences: when the third query is the first to succeed,
its receipt comes back after 3 queries; when every query fails, the timeout
error comes back after 30 queries. -/
theorem waitForTransactionReceipt_bounded_witness :
    ((waitForTransactionReceipt thirdQueryMined 1).result = .ok ⟨1⟩ ∧
        (waitForTransactionReceipt thirdQueryMined 1).trace =
          List.replicate 3 (.transactionReceipt 1)) ∧
      ((waitForTransactionReceipt (fun _ => .error "not found") 1).result =
          .error "transaction not mined after 30 attempts" ∧
        (waitForTransactionReceipt (fun _ => .error "not found") 1).trace =
          List.replicate 30 (.transactionReceipt 1)) :=
  ⟨(waitForTransactionReceipt_bounded thirdQueryMined 1).2.1 3 ⟨1⟩ (by decide) (by decide)
      (fun j hj => ⟨"not found", by
        have hj2 : j < 2 := hj
        simp [thirdQueryMined, hj2]⟩) rfl,
    (waitForTransactionReceipt_bounded (fun _ => .error "not found") 1).2.2
      (fun _ _ => ⟨"not found", rfl⟩)⟩

/-! ### Nonce and gas price of the transaction options -/

/-- For a pending nonce below `2 ^ 63` and any gas price, each transaction a
mutating operation submits carries exactly that nonce and that gas price. -/
theorem nonce_gasPrice_carried (s : RedEnvelopeService) (env : Env)
    (kind : Uint8) (token : Address) (totalClaims : Uint32) (amount : Int)
    (expiryDuration : Duration) (roomIdHash : Bytes32) (recipient : Address)
    (envelopeId : Int) (nonce : Uint64) (gasPrice : Int) (r : Run Transaction)
    (hr : r ∈ [s.CreateEnvelope env kind token totalClaims amount expiryDuration roomIdHash
      recipient, s.ClaimEnvelope env envelopeId, s.RefundEnvelope env envelopeId])
    (hn : env.PendingNonceAt s.Address = .ok nonce) (hg : env.SuggestGasPrice = .ok gasPrice)
    (hsmall : nonce.val < 2 ^ 63) (c : TransactCall) (hc : c ∈ submitted r.trace) :
    c.opts.Nonce = (nonce.val : Int) ∧ c.opts.GasPrice = gasPrice := by
  have hconv : toInt64 nonce.val = (nonce.val : Int) := by
    have hmod : nonce.val % 2 ^ 64 = nonce.val := Nat.mod_eq_of_lt nonce.isLt
    simp only [toInt64, hmod]
    rw [if_pos hsmall]
  simp only [List.mem_cons, List.mem_singleton, List.not_mem_nil, or_false] at hr
  rcases hr with rfl | rfl | rfl
  · obtain ⟨n2, g2, hn2, hg2, rfl⟩ := mem_submitted_createEnvelope s env kind token totalClaims
      amount expiryDuration roomIdHash recipient c hc
    rw [hn] at hn2
    rw [hg] at hg2
    cases hn2
    cases hg2
    exact ⟨hconv, rfl⟩
  · obtain ⟨n2, g2, hn2, hg2, rfl⟩ := mem_submitted_claimEnvelope s env envelopeId c hc
    rw [hn] at hn2
    rw [hg] at hg2
    cases hn2
    cases hg2
    exact ⟨hconv, rfl⟩
  · obtain ⟨n2, g2, hn2, hg2, rfl⟩ := mem_submitted_refundEnvelope s env envelopeId c hc
    rw [hn] at hn2
    rw [hg] at hg2
    cases hn2
    cases hg2
    exact ⟨hconv, rfl⟩

/-- C20 at the pending nonce `2 ^ 63 = 9223372036854775808`: the node reports
that nonce and gas price `10 ^ 9`; each of the three operations submits one
transaction whose options carry the gas price unchanged but the nonce
`-9223372036854775808`, because `big.NewInt(int64(nonce))` wraps. -/
theorem nonce_wraps_at_two_pow_63 :
    hugeNonceEnv.PendingNonceAt sampleService.Address = .ok 9223372036854775808 ∧
      (submitted (sampleService.CreateEnvelope hugeNonceEnv GROUP_FIXED 0 5 100
          3600000000000 0 0).trace).map (fun c => (c.opts.Nonce, c.opts.GasPrice)) =
        [(-9223372036854775808, 1000000000)] ∧
      (submitted (sampleService.ClaimEnvelope hugeNonceEnv 3).trace).map
          (fun c => (c.opts.Nonce, c.opts.GasPrice)) =
        [(-9223372036854775808, 1000000000)] ∧
      (submitted (sampleService.RefundEnvelope hugeNonceEnv 3).trace).map
          (fun c => (c.opts.Nonce, c.opts.GasPrice)) =
        [(-9223372036854775808, 1000000000)] := by
  refine ⟨rfl, ?_, ?_, ?_⟩ <;> decide

/-! ### The room-hash helper -/

set_option maxRecDepth 100000 in
/-- Test vector: the Keccak-256 digest of the empty message (the SHA3-256
digest of it is `a7ffc6f8…`, another value). -/
theorem keccak256Hash_empty :
    Keccak256Hash [] =
      0xc5d2460186f7233c927e7db2dcc703c0e500b653ca82273b7bfad8045d85a470 := by
  decide

set_option maxRecDepth 100000 in
/-- The digest of the room identifier `test-room-123`. -/
theorem generateRoomIdHash_test_room :
    GenerateRoomIdHash "test-room-123" =
      0xbe4c499132028f6ac1e4f21dea4e107899bf64028a1c1d1230357627a68d75e0 := by
  decide

set_option maxRecDepth 100000 in
/-- The digest of the room identifier `different-room`. -/
theorem generateRoomIdHash_different_room :
    GenerateRoomIdHash "different-room" =
      0xbf49511ff4ee5ffcf9807b0fa955a15676e836cc1f6847b83866320094dbdda5 := by
  decide

theorem keccak256_length (msg : List Nat) : (Keccak256 msg).length = 32 := by
  unfold Keccak256 Keccak.squeeze
  rfl

/-! #### The bytes that are hashed are the UTF-8 bytes -/

theorem or_192_of_lt : ∀ z, z < 32 → z ||| 192 = 192 + z := by decide

theorem or_128_of_lt : ∀ z, z < 64 → z ||| 128 = 128 + z := by decide

theorem or_224_of_lt : ∀ z, z < 16 → z ||| 224 = 224 + z := by decide

theorem or_240_of_lt : ∀ z, z < 8 → z ||| 240 = 240 + z := by decide

theorem uint8_mask_toNat (v : UInt32) (m : Nat) (hm : m = 31 ∨ m = 63 ∨ m = 15 ∨ m = 7) :
    (v.toUInt8 &&& UInt8.ofNat m).toNat = v.toNat % (m + 1) := by
  have h1 : (v.toUInt8 &&& UInt8.ofNat m).toNat = (v.toNat % 256) &&& (m % 256) := by
    show ((v.toUInt8).toBitVec &&& (UInt8.ofNat m).toBitVec).toNat = _
    rw [BitVec.toNat_and]
    rfl
  rw [h1]
  rcases hm with rfl | rfl | rfl | rfl
  · have := Nat.and_pow_two_sub_one_eq_mod (v.toNat % 256) 5
    simp at this ⊢
    omega
  · have := Nat.and_pow_two_sub_one_eq_mod (v.toNat % 256) 6
    simp at this ⊢
    omega
  · have := Nat.and_pow_two_sub_one_eq_mod (v.toNat % 256) 4
    simp at this ⊢
    omega
  · have := Nat.and_pow_two_sub_one_eq_mod (v.toNat % 256) 3
    simp at this ⊢
    omega

theorem uint32_shr_toNat (v : UInt32) (k : Nat) (hk : k = 6 ∨ k = 12 ∨ k = 18) :
    (v >>> UInt32.ofNat k).toNat = v.toNat / 2 ^ k := by
  have h : (v >>> UInt32.ofNat k).toNat = v.toNat >>> k := by
    rcases hk with rfl | rfl | rfl <;>
      exact BitVec.toNat_ushiftRight _ _
  rw [h, Nat.shiftRight_eq_div_pow]

theorem uint8_lor_toNat (a b : UInt8) : (a ||| b).toNat = a.toNat ||| b.toNat :=
  BitVec.toNat_or _ _

theorem uint8_ofNat_toNat (t : Nat) (ht : t < 256) : (UInt8.ofNat t).toNat = t := by
  show (BitVec.ofNat 8 t).toNat = t
  simp [BitVec.toNat_ofNat]
  omega

theorem uint32_toUInt8_toNat (v : UInt32) : v.toUInt8.toNat = v.toNat % 256 := by
  show (BitVec.ofNat 8 v.toNat).toNat = _
  simp [BitVec.toNat_ofNat]

theorem uint32_le_iff_toNat (v : UInt32) (b : Nat) (hb : b < 4294967296) :
    v ≤ UInt32.ofNat b ↔ v.toNat ≤ b := by
  rw [UInt32.le_def, BitVec.le_def]
  show v.toNat ≤ (BitVec.ofNat 32 b).toNat ↔ _
  rw [BitVec.toNat_ofNat, Nat.mod_eq_of_lt (by simpa using hb)]

/-- The bytes the embedding hashes for one character are its UTF-8 encoding as
RFC 3629 defines it. -/
theorem utf8EncodeChar_eq_spec (c : Char) :
    (String.utf8EncodeChar c).map UInt8.toNat = Spec.utf8EncodeChar c := by
  have hc : c.toNat = c.val.toNat := rfl
  have hvalid : c.val.toNat < 1114112 := by
    have := c.valid
    rcases this with h | ⟨_, h⟩
    · have : c.val.toNat < 55296 := h
      omega
    · exact h
  have e1 : (c.val ≤ 0x7f) ↔ c.val.toNat ≤ 127 := uint32_le_iff_toNat c.val 127 (by decide)
  have e2 : (c.val ≤ 0x7ff) ↔ c.val.toNat ≤ 2047 := uint32_le_iff_toNat c.val 2047 (by decide)
  have e3 : (c.val ≤ 0xffff) ↔ c.val.toNat ≤ 65535 :=
    uint32_le_iff_toNat c.val 65535 (by decide)
  have s6 := uint32_shr_toNat c.val 6 (Or.inl rfl)
  have s12 := uint32_shr_toNat c.val 12 (Or.inr (Or.inl rfl))
  have s18 := uint32_shr_toNat c.val 18 (Or.inr (Or.inr rfl))
  have b63 := fun w => uint8_mask_toNat w 63 (Or.inr (Or.inl rfl))
  have b31 := fun w => uint8_mask_toNat w 31 (Or.inl rfl)
  have b15 := fun w => uint8_mask_toNat w 15 (Or.inr (Or.inr (Or.inl rfl)))
  have b7 := fun w => uint8_mask_toNat w 7 (Or.inr (Or.inr (Or.inr rfl)))
  have o128 := uint8_ofNat_toNat 128 (by decide)
  have o192 := uint8_ofNat_toNat 192 (by decide)
  have o224 := uint8_ofNat_toNat 224 (by decide)
  have o240 := uint8_ofNat_toNat 240 (by decide)
  have k6 : (c.val >>> 6) = (c.val >>> UInt32.ofNat 6) := rfl
  have k12 : (c.val >>> 12) = (c.val >>> UInt32.ofNat 12) := rfl
  have k18 : (c.val >>> 18) = (c.val >>> UInt32.ofNat 18) := rfl
  have m63 : (63 : UInt8) = UInt8.ofNat 63 := rfl
  have m31 : (31 : UInt8) = UInt8.ofNat 31 := rfl
  have m15 : (15 : UInt8) = UInt8.ofNat 15 := rfl
  have m7 : (7 : UInt8) = UInt8.ofNat 7 := rfl
  have t128 : (128 : UInt8) = UInt8.ofNat 128 := rfl
  have t192 : (192 : UInt8) = UInt8.ofNat 192 := rfl
  have t224 : (224 : UInt8) = UInt8.ofNat 224 := rfl
  have t240 : (240 : UInt8) = UInt8.ofNat 240 := rfl
  unfold String.utf8EncodeChar Spec.utf8EncodeChar
  simp only [hc, e1, e2, e3]
  by_cases h1 : c.val.toNat ≤ 127
  · simp only [h1, if_true, List.map, uint32_toUInt8_toNat]
    congr 1
    omega
  · by_cases h2 : c.val.toNat ≤ 2047
    · simp only [h1, h2, if_true, if_false, List.map, uint8_lor_toNat, k6, m63, m31, t128,
        t192, b63, b31, s6, o128, o192]
      have a1 := or_192_of_lt (c.val.toNat / 2 ^ 6 % (31 + 1)) (by omega)
      have a2 := or_128_of_lt (c.val.toNat % (63 + 1)) (by omega)
      rw [a1, a2]
      congr 1
      omega
    · by_cases h3 : c.val.toNat ≤ 65535
      · simp only [h1, h2, h3, if_true, if_false, List.map, uint8_lor_toNat, k6, k12, m63, m15,
          t128, t224, b63, b15, s6, s12, o128, o224]
        have a1 := or_224_of_lt (c.val.toNat / 2 ^ 12 % (15 + 1)) (by omega)
        have a2 := or_128_of_lt (c.val.toNat / 2 ^ 6 % (63 + 1)) (by omega)
        have a3 := or_128_of_lt (c.val.toNat % (63 + 1)) (by omega)
        rw [a1, a2, a3]
        congr 1
        omega
      · simp only [h1, h2, h3, if_false, List.map, uint8_lor_toNat, k6, k12, k18, m63, m7,
          t128, t240, b63, b7, s6, s12, s18, o128, o240]
        have a0 := or_240_of_lt (c.val.toNat / 2 ^ 18 % (7 + 1)) (by omega)
        have a1 := or_128_of_lt (c.val.toNat / 2 ^ 12 % (63 + 1)) (by omega)
        have a2 := or_128_of_lt (c.val.toNat / 2 ^ 6 % (63 + 1)) (by omega)
        have a3 := or_128_of_lt (c.val.toNat % (63 + 1)) (by omega)
        rw [a0, a1, a2, a3]
        congr 1
        omega

/-- The byte string the embedding hashes is the UTF-8 encoding of the text. -/
theorem utf8Bytes_eq_spec (s : String) : utf8Bytes s = Spec.utf8Encode s := by
  unfold utf8Bytes Spec.utf8Encode
  congr 1
  funext c
  exact utf8EncodeChar_eq_spec c

/-! #### Test vectors of Keccak-256 -/

/-- Test vector: the Keccak-256 digest of `abc`. -/
theorem keccak256Hash_abc :
    Keccak256Hash [0x61, 0x62, 0x63] =
      0x4e03657aea45a94fc7d47ba826c8d667c0d1e6e33a64a036ec44f58fa12d6c45 := by
  decide!

/-- Test vector: 135 bytes `a`, one byte short of the rate, so the padding is
the single byte `0x81`. -/
theorem keccak256Hash_135 :
    Keccak256Hash (List.replicate 135 0x61) =
      0x34367dc248bbd832f4e3e69dfaac2f92638bd0bbd18f2912ba4ef454919cf446 := by
  decide!

/-- Test vector: 136 bytes `a`, a full block, so the padding is a block of its
own. -/
theorem keccak256Hash_136 :
    Keccak256Hash (List.replicate 136 0x61) =
      0xa6c4d403279fe3e0af03729caada8374b5ca54d8065329a3ebcaeb4b60aa386e := by
  decide!

/-- Test vector: 200 bytes `a`, absorbed in two blocks. -/
theorem keccak256Hash_200 :
    Keccak256Hash (List.replicate 200 0x61) =
      0x96ea54061def936c4be90b518992fdc6f12f535068a256229aca54267b4d084d := by
  decide!

/-- The digest of a room identifier with characters of one, two, three and four
UTF-8 bytes. -/
theorem generateRoomIdHash_multibyte :
    GenerateRoomIdHash "房间-é-😀" =
      0x368238adc5ea9b31b45991c45552a41dcf71f55a2843b2fe0881894258036ce7 := by
  decide!

/-- C17: `GenerateRoomIdHash` is a function of `roomId` alone: equal inputs give
equal digests.  The digest is the Keccak-256 hash of exactly the UTF-8 bytes of
`roomId` as RFC 3629 defines them, with nothing prepended or appended before
the hash's own padding, and it is 32 bytes long.  The hash is the original
Keccak-256 (padding byte `0x01`), as its digests of the empty message, of
`abc` and of messages of 135, 136 and 200 bytes show. -/
theorem generateRoomIdHash_deterministic (roomId : String) :
    (∀ other : String, other = roomId → GenerateRoomIdHash other = GenerateRoomIdHash roomId) ∧
      GenerateRoomIdHash roomId = BytesToHash (Keccak256 (Spec.utf8Encode roomId)) ∧
      (Keccak256 (Spec.utf8Encode roomId)).length = 32 ∧
      GenerateRoomIdHash "" =
        0xc5d2460186f7233c927e7db2dcc703c0e500b653ca82273b7bfad8045d85a470 ∧
      Keccak256Hash [0x61, 0x62, 0x63] =
        0x4e03657aea45a94fc7d47ba826c8d667c0d1e6e33a64a036ec44f58fa12d6c45 ∧
      Keccak256Hash (List.replicate 135 0x61) =
        0x34367dc248bbd832f4e3e69dfaac2f92638bd0bbd18f2912ba4ef454919cf446 ∧
      Keccak256Hash (List.replicate 136 0x61) =
        0xa6c4d403279fe3e0af03729caada8374b5ca54d8065329a3ebcaeb4b60aa386e ∧
      Keccak256Hash (List.replicate 200 0x61) =
        0x96ea54061def936c4be90b518992fdc6f12f535068a256229aca54267b4d084d := by
  refine ⟨fun _ h => congrArg GenerateRoomIdHash h, ?_, keccak256_length _, keccak256Hash_empty,
    keccak256Hash_abc, keccak256Hash_135, keccak256Hash_136, keccak256Hash_200⟩
  unfold GenerateRoomIdHash Keccak256Hash
  rw [utf8Bytes_eq_spec]

/-- C17 on a room identifier made of characters of one, two, three and four
UTF-8 bytes: its UTF-8 bytes are the fourteen listed, hashing it twice gives
the same digest, and that digest is `368238ad…036ce7`, the Keccak-256 hash of
those fourteen bytes. -/
theorem generateRoomIdHash_deterministic_witness :
    Spec.utf8Encode "房间-é-😀" =
        [230, 136, 191, 233, 151, 180, 45, 195, 169, 45, 240, 159, 152, 128] ∧
      GenerateRoomIdHash "房间-é-😀" = GenerateRoomIdHash "房间-é-😀" ∧
      GenerateRoomIdHash "房间-é-😀" =
        BytesToHash (Keccak256
          [230, 136, 191, 233, 151, 180, 45, 195, 169, 45, 240, 159, 152, 128]) ∧
      GenerateRoomIdHash "房间-é-😀" =
        0x368238adc5ea9b31b45991c45552a41dcf71f55a2843b2fe0881894258036ce7 :=
  ⟨by decide, (generateRoomIdHash_deterministic "房间-é-😀").1 "房间-é-😀" rfl,
    (generateRoomIdHash_deterministic "房间-é-😀").2.1.trans
      (congrArg (fun b => BytesToHash (Keccak256 b)) (by decide)),
    generateRoomIdHash_multibyte⟩

/-- C18 (as the code behaves): the digests of the test's two room identifiers,
`test-room-123` and `different-room`, differ, and neither is the all-zero
hash. -/
theorem generateRoomIdHash_test_pair_differs :
    GenerateRoomIdHash "test-room-123" ≠ GenerateRoomIdHash "different-room" ∧
      GenerateRoomIdHash "test-room-123" ≠ 0 ∧ GenerateRoomIdHash "different-room" ≠ 0 := by
  rw [generateRoomIdHash_test_room, generateRoomIdHash_different_room]
  decide

/-- C18 fails as stated: digests have 256 bits and there are more than `2 ^ 256`
non-empty strings, so two distinct non-empty room identifiers share a
digest. -/
theorem generateRoomIdHash_not_injective :
    ¬ ∀ a b : String, a ≠ "" → b ≠ "" → a ≠ b →
      GenerateRoomIdHash a ≠ GenerateRoomIdHash b := by
  intro h
  let f : Fin (2 ^ 256 + 1) → String := fun n => String.mk (List.replicate (n.val + 1) 'a')
  have hlen : ∀ n, (f n).length = n.val + 1 := fun n => List.length_replicate _ _
  have hf : Function.Injective f := by
    intro x y hxy
    have h2 := congrArg String.length hxy
    rw [hlen, hlen] at h2
    exact Fin.ext (by omega)
  have hne : ∀ n, f n ≠ "" := by
    intro n hn
    have h2 := congrArg String.length hn
    rw [hlen] at h2
    exact Nat.succ_ne_zero _ h2
  obtain ⟨x, y, hxy, heq⟩ := Fintype.exists_ne_map_eq_of_card_lt
    (fun n => GenerateRoomIdHash (f n))
    (by rw [Fintype.card_fin, Fintype.card_fin]; exact Nat.lt_succ_self _)
  exact h (f x) (f y) (hne x) (hne y) (fun e => hxy (hf e)) heq

/-! ### Bounds on the displayed fee -/

/-- C21: for every non-negative gross pot the fee at 250 basis points lies
between 0 and the gross pot, and so does the net pot; the fee is 0 exactly
when the gross pot is below 40; and the fee never decreases when the gross
pot grows. -/
theorem demo_fee_bounds (grossPot : Int) (hpot : 0 ≤ grossPot) :
    (0 ≤ demoRedEnvelope.fee grossPot ∧ demoRedEnvelope.fee grossPot ≤ grossPot) ∧
      (0 ≤ demoRedEnvelope.netPot grossPot ∧ demoRedEnvelope.netPot grossPot ≤ grossPot) ∧
      (demoRedEnvelope.fee grossPot = 0 ↔ grossPot < 40) ∧
      (∀ larger : Int, grossPot ≤ larger →
        demoRedEnvelope.fee grossPot ≤ demoRedEnvelope.fee larger) := by
  simp only [demoRedEnvelope.netPot, demoRedEnvelope.fee]
  refine ⟨⟨?_, ?_⟩, ⟨?_, ?_⟩, ⟨?_, ?_⟩, ?_⟩
  · omega
  · omega
  · omega
  · omega
  · intro h
    omega
  · intro h
    omega
  · intro larger hle
    omega

/-- C21 at the gross pots 39, 40 and 500000000000000000: the fee is 0 at 39,
becomes 1 at 40, and at the demo's pot it is 12500000000000000, below the
pot. -/
theorem demo_fee_bounds_witness :
    demoRedEnvelope.fee 39 = 0 ∧ demoRedEnvelope.fee 40 ≠ 0 ∧
      demoRedEnvelope.fee 39 ≤ demoRedEnvelope.fee 40 ∧
      demoRedEnvelope.fee 500000000000000000 ≤ 500000000000000000 ∧
      0 ≤ demoRedEnvelope.netPot 500000000000000000 :=
  ⟨(demo_fee_bounds 39 (by decide)).2.2.1.2 (by decide),
    fun h => absurd ((demo_fee_bounds 40 (by decide)).2.2.1.1 h) (by decide),
    (demo_fee_bounds 39 (by decide)).2.2.2 40 (by decide),
    (demo_fee_bounds 500000000000000000 (by decide)).1.2,
    (demo_fee_bounds 500000000000000000 (by decide)).2.1.1⟩

end RedEnvelope
